import Mathlib

/-!
A verification development for the `state-validation` crates: a shallow
embedding, in Lean, of the filter-chain composition, the validator wrapper,
the dynamic (type-erased) action bridge, the field split/combine algebra,
and the derive macro's combination/remainder registry, together with
theorems about the claims of the specification.

Rust `Result<T, E>` is modelled as `Except E T` (`map` = `Result::map`,
`mapError` = `Result::map_err`, `bind` = `Result::and_then`), and
`std::convert::Infallible` as `Empty`.  Trait methods supplied by trait
implementations (`StateFilter::filter`,
`StateFilterInputConversion::split_take`,
`StateFilterInputCombination::combine`) become function arguments of the
definitions that use them, so each theorem quantifies over all possible
implementations of the traits it involves.
-/

deriving instance DecidableEq for Except

namespace StateValidation

variable {St A : Type}
variable {I0 R0 O0 E0 C0 : Type}
variable {I1 R1 O1 E1 C1 : Type}
variable {I2 R2 O2 E2 C2 : Type}
variable {I3 R3 O3 E3 C3 : Type}
variable {I4 R4 O4 E4 C4 : Type}
variable {I5 R5 O5 E5 C5 : Type}
variable {I6 R6 O6 E6 C6 : Type}
variable {I7 R7 O7 E7 C7 : Type}
variable {In VO Out VA V E : Type}

/-- Transcription of `impl<State> StateFilter<State, ()> for ()`
(src/state-validation/src/state_filter.rs lines 8-14): the identity filter,
defined for input `()`, always succeeding with `()`; its error type is
`Infallible`, modelled as `Empty`. -/
def unitStateFilter : St → Unit → Except Empty Unit :=
  fun _ _ => Except.ok ()

/-- `StateFilterTwoChainError` from src/state-validation/src/state_filter.rs:
the tagged error of a 2-step chain, one constructor per step. -/
inductive StateFilterTwoChainError (E0 E1 : Type) where
  | Filter0 : E0 → StateFilterTwoChainError E0 E1
  | Filter1 : E1 → StateFilterTwoChainError E0 E1
deriving DecidableEq

/-- `StateFilterThreeChainError` from src/state-validation/src/state_filter.rs:
the tagged error of a 3-step chain, one constructor per step. -/
inductive StateFilterThreeChainError (E0 E1 E2 : Type) where
  | Filter0 : E0 → StateFilterThreeChainError E0 E1 E2
  | Filter1 : E1 → StateFilterThreeChainError E0 E1 E2
  | Filter2 : E2 → StateFilterThreeChainError E0 E1 E2
deriving DecidableEq

/-- `StateFilterFourChainError` from src/state-validation/src/state_filter.rs:
the tagged error of a 4-step chain, one constructor per step. -/
inductive StateFilterFourChainError (E0 E1 E2 E3 : Type) where
  | Filter0 : E0 → StateFilterFourChainError E0 E1 E2 E3
  | Filter1 : E1 → StateFilterFourChainError E0 E1 E2 E3
  | Filter2 : E2 → StateFilterFourChainError E0 E1 E2 E3
  | Filter3 : E3 → StateFilterFourChainError E0 E1 E2 E3
deriving DecidableEq

/-- `StateFilterFiveChainError` from src/state-validation/src/state_filter.rs:
the tagged error of a 5-step chain, one constructor per step. -/
inductive StateFilterFiveChainError (E0 E1 E2 E3 E4 : Type) where
  | Filter0 : E0 → StateFilterFiveChainError E0 E1 E2 E3 E4
  | Filter1 : E1 → StateFilterFiveChainError E0 E1 E2 E3 E4
  | Filter2 : E2 → StateFilterFiveChainError E0 E1 E2 E3 E4
  | Filter3 : E3 → StateFilterFiveChainError E0 E1 E2 E3 E4
  | Filter4 : E4 → StateFilterFiveChainError E0 E1 E2 E3 E4
deriving DecidableEq

/-- `StateFilterSixChainError` from src/state-validation/src/state_filter.rs:
the tagged error of a 6-step chain, one constructor per step. -/
inductive StateFilterSixChainError (E0 E1 E2 E3 E4 E5 : Type) where
  | Filter0 : E0 → StateFilterSixChainError E0 E1 E2 E3 E4 E5
  | Filter1 : E1 → StateFilterSixChainError E0 E1 E2 E3 E4 E5
  | Filter2 : E2 → StateFilterSixChainError E0 E1 E2 E3 E4 E5
  | Filter3 : E3 → StateFilterSixChainError E0 E1 E2 E3 E4 E5
  | Filter4 : E4 → StateFilterSixChainError E0 E1 E2 E3 E4 E5
  | Filter5 : E5 → StateFilterSixChainError E0 E1 E2 E3 E4 E5
deriving DecidableEq

/-- `StateFilterSevenChainError` from src/state-validation/src/state_filter.rs:
the tagged error of a 7-step chain, one constructor per step. -/
inductive StateFilterSevenChainError (E0 E1 E2 E3 E4 E5 E6 : Type) where
  | Filter0 : E0 → StateFilterSevenChainError E0 E1 E2 E3 E4 E5 E6
  | Filter1 : E1 → StateFilterSevenChainError E0 E1 E2 E3 E4 E5 E6
  | Filter2 : E2 → StateFilterSevenChainError E0 E1 E2 E3 E4 E5 E6
  | Filter3 : E3 → StateFilterSevenChainError E0 E1 E2 E3 E4 E5 E6
  | Filter4 : E4 → StateFilterSevenChainError E0 E1 E2 E3 E4 E5 E6
  | Filter5 : E5 → StateFilterSevenChainError E0 E1 E2 E3 E4 E5 E6
  | Filter6 : E6 → StateFilterSevenChainError E0 E1 E2 E3 E4 E5 E6
deriving DecidableEq

/-- `StateFilterEightChainError` from src/state-validation/src/state_filter.rs:
the tagged error of a 8-step chain, one constructor per step. -/
inductive StateFilterEightChainError (E0 E1 E2 E3 E4 E5 E6 E7 : Type) where
  | Filter0 : E0 → StateFilterEightChainError E0 E1 E2 E3 E4 E5 E6 E7
  | Filter1 : E1 → StateFilterEightChainError E0 E1 E2 E3 E4 E5 E6 E7
  | Filter2 : E2 → StateFilterEightChainError E0 E1 E2 E3 E4 E5 E6 E7
  | Filter3 : E3 → StateFilterEightChainError E0 E1 E2 E3 E4 E5 E6 E7
  | Filter4 : E4 → StateFilterEightChainError E0 E1 E2 E3 E4 E5 E6 E7
  | Filter5 : E5 → StateFilterEightChainError E0 E1 E2 E3 E4 E5 E6 E7
  | Filter6 : E6 → StateFilterEightChainError E0 E1 E2 E3 E4 E5 E6 E7
  | Filter7 : E7 → StateFilterEightChainError E0 E1 E2 E3 E4 E5 E6 E7
deriving DecidableEq

/-- Transcription of `StateFilter::filter` for the 2-tuple of `Condition`s
(src/state-validation/src/state_filter.rs).  The trait methods `split_take`,
`filter` and `combine` of each step are passed as function arguments; the body
is the `map`/`map_err`/`and_then` pipeline of the Rust source, with the tuple
returned by `split_take` accessed through its two projections. -/
def twoChainFilter
    (split0 : A → I0 × R0) (f0 : St → I0 → Except E0 O0) (comb0 : R0 → O0 → C0)
    (split1 : C0 → I1 × R1) (f1 : St → I1 → Except E1 O1) (comb1 : R1 → O1 → C1)
    (state : St) (value : A) : Except (StateFilterTwoChainError E0 E1) C1 :=
  ((((f0 state (split0 value).1).map (fun v => comb0 (split0 value).2 v)).mapError
      (fun e => StateFilterTwoChainError.Filter0 e)).bind (fun v =>
    ((f1 state (split1 v).1).map (fun w => comb1 (split1 v).2 w)).mapError
      (fun e => StateFilterTwoChainError.Filter1 e)))

/-- Transcription of `StateFilter::filter` for the 3-tuple of `Condition`s
(src/state-validation/src/state_filter.rs).  The trait methods `split_take`,
`filter` and `combine` of each step are passed as function arguments; the body
is the `map`/`map_err`/`and_then` pipeline of the Rust source, with the tuple
returned by `split_take` accessed through its two projections. -/
def threeChainFilter
    (split0 : A → I0 × R0) (f0 : St → I0 → Except E0 O0) (comb0 : R0 → O0 → C0)
    (split1 : C0 → I1 × R1) (f1 : St → I1 → Except E1 O1) (comb1 : R1 → O1 → C1)
    (split2 : C1 → I2 × R2) (f2 : St → I2 → Except E2 O2) (comb2 : R2 → O2 → C2)
    (state : St) (value : A) : Except (StateFilterThreeChainError E0 E1 E2) C2 :=
  (((((f0 state (split0 value).1).map (fun v => comb0 (split0 value).2 v)).mapError
      (fun e => StateFilterThreeChainError.Filter0 e)).bind (fun v =>
    ((f1 state (split1 v).1).map (fun w => comb1 (split1 v).2 w)).mapError
      (fun e => StateFilterThreeChainError.Filter1 e))).bind (fun v =>
    ((f2 state (split2 v).1).map (fun w => comb2 (split2 v).2 w)).mapError
      (fun e => StateFilterThreeChainError.Filter2 e)))

/-- Transcription of `StateFilter::filter` for the 4-tuple of `Condition`s
(src/state-validation/src/state_filter.rs).  The trait methods `split_take`,
`filter` and `combine` of each step are passed as function arguments; the body
is the `map`/`map_err`/`and_then` pipeline of the Rust source, with the tuple
returned by `split_take` accessed through its two projections. -/
def fourChainFilter
    (split0 : A → I0 × R0) (f0 : St → I0 → Except E0 O0) (comb0 : R0 → O0 → C0)
    (split1 : C0 → I1 × R1) (f1 : St → I1 → Except E1 O1) (comb1 : R1 → O1 → C1)
    (split2 : C1 → I2 × R2) (f2 : St → I2 → Except E2 O2) (comb2 : R2 → O2 → C2)
    (split3 : C2 → I3 × R3) (f3 : St → I3 → Except E3 O3) (comb3 : R3 → O3 → C3)
    (state : St) (value : A) : Except (StateFilterFourChainError E0 E1 E2 E3) C3 :=
  ((((((f0 state (split0 value).1).map (fun v => comb0 (split0 value).2 v)).mapError
      (fun e => StateFilterFourChainError.Filter0 e)).bind (fun v =>
    ((f1 state (split1 v).1).map (fun w => comb1 (split1 v).2 w)).mapError
      (fun e => StateFilterFourChainError.Filter1 e))).bind (fun v =>
    ((f2 state (split2 v).1).map (fun w => comb2 (split2 v).2 w)).mapError
      (fun e => StateFilterFourChainError.Filter2 e))).bind (fun v =>
    ((f3 state (split3 v).1).map (fun w => comb3 (split3 v).2 w)).mapError
      (fun e => StateFilterFourChainError.Filter3 e)))

/-- Transcription of `StateFilter::filter` for the 5-tuple of `Condition`s
(src/state-validation/src/state_filter.rs).  The trait methods `split_take`,
`filter` and `combine` of each step are passed as function arguments; the body
is the `map`/`map_err`/`and_then` pipeline of the Rust source, with the tuple
returned by `split_take` accessed through its two projections. -/
def fiveChainFilter
    (split0 : A → I0 × R0) (f0 : St → I0 → Except E0 O0) (comb0 : R0 → O0 → C0)
    (split1 : C0 → I1 × R1) (f1 : St → I1 → Except E1 O1) (comb1 : R1 → O1 → C1)
    (split2 : C1 → I2 × R2) (f2 : St → I2 → Except E2 O2) (comb2 : R2 → O2 → C2)
    (split3 : C2 → I3 × R3) (f3 : St → I3 → Except E3 O3) (comb3 : R3 → O3 → C3)
    (split4 : C3 → I4 × R4) (f4 : St → I4 → Except E4 O4) (comb4 : R4 → O4 → C4)
    (state : St) (value : A) : Except (StateFilterFiveChainError E0 E1 E2 E3 E4) C4 :=
  (((((((f0 state (split0 value).1).map (fun v => comb0 (split0 value).2 v)).mapError
      (fun e => StateFilterFiveChainError.Filter0 e)).bind (fun v =>
    ((f1 state (split1 v).1).map (fun w => comb1 (split1 v).2 w)).mapError
      (fun e => StateFilterFiveChainError.Filter1 e))).bind (fun v =>
    ((f2 state (split2 v).1).map (fun w => comb2 (split2 v).2 w)).mapError
      (fun e => StateFilterFiveChainError.Filter2 e))).bind (fun v =>
    ((f3 state (split3 v).1).map (fun w => comb3 (split3 v).2 w)).mapError
      (fun e => StateFilterFiveChainError.Filter3 e))).bind (fun v =>
    ((f4 state (split4 v).1).map (fun w => comb4 (split4 v).2 w)).mapError
      (fun e => StateFilterFiveChainError.Filter4 e)))

/-- Transcription of `StateFilter::filter` for the 6-tuple of `Condition`s
(src/state-validation/src/state_filter.rs).  The trait methods `split_take`,
`filter` and `combine` of each step are passed as function arguments; the body
is the `map`/`map_err`/`and_then` pipeline of the Rust source, with the tuple
returned by `split_take` accessed through its two projections. -/
def sixChainFilter
    (split0 : A → I0 × R0) (f0 : St → I0 → Except E0 O0) (comb0 : R0 → O0 → C0)
    (split1 : C0 → I1 × R1) (f1 : St → I1 → Except E1 O1) (comb1 : R1 → O1 → C1)
    (split2 : C1 → I2 × R2) (f2 : St → I2 → Except E2 O2) (comb2 : R2 → O2 → C2)
    (split3 : C2 → I3 × R3) (f3 : St → I3 → Except E3 O3) (comb3 : R3 → O3 → C3)
    (split4 : C3 → I4 × R4) (f4 : St → I4 → Except E4 O4) (comb4 : R4 → O4 → C4)
    (split5 : C4 → I5 × R5) (f5 : St → I5 → Except E5 O5) (comb5 : R5 → O5 → C5)
    (state : St) (value : A) : Except (StateFilterSixChainError E0 E1 E2 E3 E4 E5) C5 :=
  ((((((((f0 state (split0 value).1).map (fun v => comb0 (split0 value).2 v)).mapError
      (fun e => StateFilterSixChainError.Filter0 e)).bind (fun v =>
    ((f1 state (split1 v).1).map (fun w => comb1 (split1 v).2 w)).mapError
      (fun e => StateFilterSixChainError.Filter1 e))).bind (fun v =>
    ((f2 state (split2 v).1).map (fun w => comb2 (split2 v).2 w)).mapError
      (fun e => StateFilterSixChainError.Filter2 e))).bind (fun v =>
    ((f3 state (split3 v).1).map (fun w => comb3 (split3 v).2 w)).mapError
      (fun e => StateFilterSixChainError.Filter3 e))).bind (fun v =>
    ((f4 state (split4 v).1).map (fun w => comb4 (split4 v).2 w)).mapError
      (fun e => StateFilterSixChainError.Filter4 e))).bind (fun v =>
    ((f5 state (split5 v).1).map (fun w => comb5 (split5 v).2 w)).mapError
      (fun e => StateFilterSixChainError.Filter5 e)))

/-- Transcription of `StateFilter::filter` for the 7-tuple of `Condition`s
(src/state-validation/src/state_filter.rs).  The trait methods `split_take`,
`filter` and `combine` of each step are passed as function arguments; the body
is the `map`/`map_err`/`and_then` pipeline of the Rust source, with the tuple
returned by `split_take` accessed through its two projections. -/
def sevenChainFilter
    (split0 : A → I0 × R0) (f0 : St → I0 → Except E0 O0) (comb0 : R0 → O0 → C0)
    (split1 : C0 → I1 × R1) (f1 : St → I1 → Except E1 O1) (comb1 : R1 → O1 → C1)
    (split2 : C1 → I2 × R2) (f2 : St → I2 → Except E2 O2) (comb2 : R2 → O2 → C2)
    (split3 : C2 → I3 × R3) (f3 : St → I3 → Except E3 O3) (comb3 : R3 → O3 → C3)
    (split4 : C3 → I4 × R4) (f4 : St → I4 → Except E4 O4) (comb4 : R4 → O4 → C4)
    (split5 : C4 → I5 × R5) (f5 : St → I5 → Except E5 O5) (comb5 : R5 → O5 → C5)
    (split6 : C5 → I6 × R6) (f6 : St → I6 → Except E6 O6) (comb6 : R6 → O6 → C6)
    (state : St) (value : A) : Except (StateFilterSevenChainError E0 E1 E2 E3 E4 E5 E6) C6 :=
  (((((((((f0 state (split0 value).1).map (fun v => comb0 (split0 value).2 v)).mapError
      (fun e => StateFilterSevenChainError.Filter0 e)).bind (fun v =>
    ((f1 state (split1 v).1).map (fun w => comb1 (split1 v).2 w)).mapError
      (fun e => StateFilterSevenChainError.Filter1 e))).bind (fun v =>
    ((f2 state (split2 v).1).map (fun w => comb2 (split2 v).2 w)).mapError
      (fun e => StateFilterSevenChainError.Filter2 e))).bind (fun v =>
    ((f3 state (split3 v).1).map (fun w => comb3 (split3 v).2 w)).mapError
      (fun e => StateFilterSevenChainError.Filter3 e))).bind (fun v =>
    ((f4 state (split4 v).1).map (fun w => comb4 (split4 v).2 w)).mapError
      (fun e => StateFilterSevenChainError.Filter4 e))).bind (fun v =>
    ((f5 state (split5 v).1).map (fun w => comb5 (split5 v).2 w)).mapError
      (fun e => StateFilterSevenChainError.Filter5 e))).bind (fun v =>
    ((f6 state (split6 v).1).map (fun w => comb6 (split6 v).2 w)).mapError
      (fun e => StateFilterSevenChainError.Filter6 e)))

/-- Transcription of `StateFilter::filter` for the 8-tuple of `Condition`s
(src/state-validation/src/state_filter.rs).  The trait methods `split_take`,
`filter` and `combine` of each step are passed as function arguments; the body
is the `map`/`map_err`/`and_then` pipeline of the Rust source, with the tuple
returned by `split_take` accessed through its two projections. -/
def eightChainFilter
    (split0 : A → I0 × R0) (f0 : St → I0 → Except E0 O0) (comb0 : R0 → O0 → C0)
    (split1 : C0 → I1 × R1) (f1 : St → I1 → Except E1 O1) (comb1 : R1 → O1 → C1)
    (split2 : C1 → I2 × R2) (f2 : St → I2 → Except E2 O2) (comb2 : R2 → O2 → C2)
    (split3 : C2 → I3 × R3) (f3 : St → I3 → Except E3 O3) (comb3 : R3 → O3 → C3)
    (split4 : C3 → I4 × R4) (f4 : St → I4 → Except E4 O4) (comb4 : R4 → O4 → C4)
    (split5 : C4 → I5 × R5) (f5 : St → I5 → Except E5 O5) (comb5 : R5 → O5 → C5)
    (split6 : C5 → I6 × R6) (f6 : St → I6 → Except E6 O6) (comb6 : R6 → O6 → C6)
    (split7 : C6 → I7 × R7) (f7 : St → I7 → Except E7 O7) (comb7 : R7 → O7 → C7)
    (state : St) (value : A) : Except (StateFilterEightChainError E0 E1 E2 E3 E4 E5 E6 E7) C7 :=
  ((((((((((f0 state (split0 value).1).map (fun v => comb0 (split0 value).2 v)).mapError
      (fun e => StateFilterEightChainError.Filter0 e)).bind (fun v =>
    ((f1 state (split1 v).1).map (fun w => comb1 (split1 v).2 w)).mapError
      (fun e => StateFilterEightChainError.Filter1 e))).bind (fun v =>
    ((f2 state (split2 v).1).map (fun w => comb2 (split2 v).2 w)).mapError
      (fun e => StateFilterEightChainError.Filter2 e))).bind (fun v =>
    ((f3 state (split3 v).1).map (fun w => comb3 (split3 v).2 w)).mapError
      (fun e => StateFilterEightChainError.Filter3 e))).bind (fun v =>
    ((f4 state (split4 v).1).map (fun w => comb4 (split4 v).2 w)).mapError
      (fun e => StateFilterEightChainError.Filter4 e))).bind (fun v =>
    ((f5 state (split5 v).1).map (fun w => comb5 (split5 v).2 w)).mapError
      (fun e => StateFilterEightChainError.Filter5 e))).bind (fun v =>
    ((f6 state (split6 v).1).map (fun w => comb6 (split6 v).2 w)).mapError
      (fun e => StateFilterEightChainError.Filter6 e))).bind (fun v =>
    ((f7 state (split7 v).1).map (fun w => comb7 (split7 v).2 w)).mapError
      (fun e => StateFilterEightChainError.Filter7 e)))

/-! ### Validator (src/state-validation/src/lib.rs lines 671-695) -/

/-- `Validator<State, Input, Filter>`: owns the state together with the
filter's valid output.  The `PhantomData` marker carries no data and is
omitted; the filter is identified by its `filter` function, which the
operations below take as an argument. -/
structure Validator (St VO : Type) where
  state : St
  value : VO

/-- Transcription of `Validator::try_new`: run the filter on `(&state, input)`;
the `?` operator propagates the error unchanged, otherwise the original state
is packaged with the valid output. -/
def Validator.tryNew (filter : St → In → Except E VO) (state : St) (input : In) :
    Except E (Validator St VO) :=
  match filter state input with
  | Except.error e => Except.error e
  | Except.ok value => Except.ok { state := state, value := value }

/-- Transcription of `Validator::valid_output`: a view of the stored value. -/
def Validator.validOutput (v : Validator St VO) : VO :=
  v.value

/-- Transcription of `Validator::execute`: consume the validator and invoke the
action's `with_valid_input` on `(self.state, self.value)`.  The action value is
already applied, so the action is the function `St → VO → Out`. -/
def Validator.execute (v : Validator St VO) (withValidInput : St → VO → Out) : Out :=
  withValidInput v.state v.value

/-! ### Dynamic action bridge (src/state-validation/src/dynamic/action.rs) -/

/-- `DynValidAction<State, Input, Output>`: the erased filter
(`DynStateFilter<State, Input, Box<dyn Any>>`, a plain function once erased),
the boxed action payload (`Box<dyn DynAnyClone>`, modelled by a type `VA`),
and the invocation function pointer.  The `Box<dyn Any>` output and
`Box<dyn std::error::Error>` error are modelled by the types `V` and `E`. -/
structure DynValidAction (St In Out VA V E : Type) where
  filter : St → In → Except E V
  valid_action : VA
  action : VA → St → V → Out

/-- `DynValidActionExecutionError` (src/state-validation/src/dynamic/action.rs
lines 51-56): the original state handed back to the caller, with the boxed
error of the failed filter. -/
structure DynValidActionExecutionError (St E : Type) where
  state : St
  error : E
deriving DecidableEq

/-- Transcription of `DynValidAction::execute_with_filter`: run the erased
filter; on `Ok(v)` invoke the stored action on `(self.valid_action, state, v)`,
on `Err(error)` return `DynValidActionExecutionError { state, error }`. -/
def DynValidAction.executeWithFilter (a : DynValidAction St In Out VA V E)
    (state : St) (input : In) : Except (DynValidActionExecutionError St E) Out :=
  match a.filter state input with
  | Except.ok v => Except.ok (a.action a.valid_action state v)
  | Except.error error => Except.error { state := state, error := error }

/-! ### The field split/combine algebra

The `StateFilterConversion` derive macro
(src/state-validation-derive/src/lib.rs) emits, for a record, one
`split_take` implementation per ordered field subset (from the record and
from every generated Combination type) and one `combine` implementation per
generated Remainder type.  Every emitted body is the same shape: `split_take`
projects the chosen fields into a tuple and moves the complement, in
declaration order, into a remainder struct literal; `combine` builds the
combined struct literal from the given values and the remainder's own fields.
We model a record value as its list of `(field name, field value)` pairs in
declaration order, over a single value type `V`; the emitted code moves field
values without inspecting them, so one value type loses no generality. -/

/-- The emitted `split_take` body
(src/state-validation-derive/src/lib.rs lines 531-544 for the original record,
lines 406-416 for generated Combination types): the chosen fields' values are
projected in subset order, and the remaining fields are kept, in declaration
order, as the remainder.  Field projection `self.#field` is total in the
emitted code; `getD default` can only be reached for a name that is not a
field of `r`. -/
def recordSplitTake [Inhabited V] (r : List (String × V)) (subset : List String) :
    List V × List (String × V) :=
  (subset.map (fun n => (r.lookup n).getD default),
   r.filter (fun p => decide (p.1 ∉ subset)))

/-- The emitted `combine` body on a Remainder type
(src/state-validation-derive/src/lib.rs lines 397-405): the combined struct
literal lists the given values under the subset's field names first, then the
remainder's own fields. -/
def remainderCombine (rem : List (String × V)) (names : List String) (vals : List V) :
    List (String × V) :=
  names.zip vals ++ rem

/-- Transcription of `impl<T: StateFilterInput> StateFilterInputCombination<T>
for ()` (src/state-validation/src/state_filter.rs lines 887-892): combining the
empty remainder `()` with a value returns that value. -/
def unitRemainderCombine : Unit → A → A :=
  fun _ value => value

/-- Modelled from the spec: the base-case conversion edge of §4.1, "splitting a
value for its own type yields `(value, empty-remainder)`".  The corresponding
`StateFilterInputConversion` implementation is required by the crate
documentation's chain example (src/state-validation/src/lib.rs) but is not
among the provided source files. -/
def selfSplitTake : A → A × Unit :=
  fun value => (value, ())

/-! ### The derive macro's combination/remainder registry
(src/state-validation-derive/src/lib.rs lines 12-31 and 237-302)

The macro walks the powerset of the per-field conversion lists, by increasing
subset size; for each subset it walks the cartesian product of the fields'
declared conversion types; each (subset, choice) pair generates one
Combination struct (and, in the second identical loop, one Remainder struct)
named by a running counter, and registers it in a `HashMap` keyed by the
`ConversionSort` list sorted with `Ord for ConversionSort`, which compares
only `sort_number` (the field's declaration index).  We model the generated
identifier `..Combined_{i}` / `..Remainder_{i}` by the counter value `i`, and
a conversion type by its name. -/

/-- `ConversionSort`: a conversion type tagged with the declaration index of
the field it belongs to.  `PartialEq`/`Eq`/`Hash` use both fields; `Ord`
compares only `sort_number`. -/
structure ConversionSort where
  sortNumber : Nat
  ty : String
deriving DecidableEq, Repr

/-- The `Ord for ConversionSort` comparison: by `sort_number` only. -/
def bySortNumber (a b : ConversionSort) : Prop :=
  a.sortNumber ≤ b.sortNumber

instance : DecidableRel bySortNumber :=
  fun a b => Nat.decLe a.sortNumber b.sortNumber

instance : IsTotal ConversionSort bySortNumber :=
  ⟨fun a b => Nat.le_total a.sortNumber b.sortNumber⟩

instance : IsTrans ConversionSort bySortNumber :=
  ⟨fun _ _ _ => Nat.le_trans⟩

/-- `field_types.sort()`: sort a key by the `Ord for ConversionSort`
comparison, i.e. by field declaration index. -/
def sortKey (l : List ConversionSort) : List ConversionSort :=
  List.insertionSort bySortNumber l

/-- The per-field conversion lists built at the start of the derive: field `i`
named `n` with declared types `tys` (primary type first, then the
`#[conversion(..)]` alternates) contributes the list of `(n, ConversionSort i
ty)` entries for `ty ∈ tys`.  A record is given as its `(name, declared
types)` list in declaration order; struct-level extra fields, which the macro
appends with the subsequent sort numbers, are further entries of the same
list. -/
def fieldEntries (fields : List (String × List String)) :
    List (List (String × ConversionSort)) :=
  fields.enum.map (fun p => p.2.2.map (fun ty => (p.2.1, ConversionSort.mk p.1 ty)))

/-- `Itertools::powerset`: all subsets, by increasing size, each subset keeping
the list's order. -/
def powersetBySize (l : List α) : List (List α) :=
  (List.range (l.length + 1)).flatMap (fun k => List.sublistsLen k l)

/-- `Itertools::multi_cartesian_product`: one element from each list, the last
list varying fastest. -/
def cartesianChoices : List (List α) → List (List α)
  | [] => [[]]
  | l :: ls => l.flatMap (fun x => (cartesianChoices ls).map (fun c => x :: c))

/-- The (subset, alternate choice) pairs enumerated by the generation loops,
in generation order: the powerset of the per-field lists, each subset expanded
by the cartesian product of its fields' conversion lists. -/
def conversionChoices (fields : List (String × List String)) :
    List (List (String × ConversionSort)) :=
  (powersetBySize (fieldEntries fields)).flatMap cartesianChoices

/-- The registry insertions of the generation loop
(src/state-validation-derive/src/lib.rs lines 237-302): the `k`-th enumerated
(subset, choice) pair registers the generated struct named by counter `k`
under its sorted `ConversionSort` list.  The combination and remainder loops
perform the identical enumeration, so one model serves `combination_names`
and `remainder_names` alike. -/
def combinationRegistrations (fields : List (String × List String)) :
    List (List ConversionSort × Nat) :=
  (conversionChoices fields).enum.map (fun p => (sortKey (p.2.map Prod.snd), p.1))

/-- `HashMap` lookup over the insertion list: the last insertion for a key
wins (`HashMap::insert` overwrites). -/
def registryLookup (m : List (List ConversionSort × Nat)) (k : List ConversionSort) :
    Option Nat :=
  m.reverse.lookup k

/-- The sorted multiset of conversion-type names of a registry key: the key
the specification says the registry is indexed by. -/
def typeMultiset (k : List ConversionSort) : Multiset String :=
  (k.map ConversionSort.ty : List String)

/-- Proof vocabulary for the registry theorems: every entry of `l₁` carries a
strictly smaller field declaration index than every entry of `l₂`.  The
per-field conversion lists of a record, in declaration order, are pairwise in
this relation. -/
def entryLt (l₁ l₂ : List (String × ConversionSort)) : Prop :=
  ∀ a ∈ l₁, ∀ b ∈ l₂, a.2.sortNumber < b.2.sortNumber

/-- A positional recursion twin of `fieldEntries`, generalising the starting
index so the per-field lists can be reasoned about by induction:
`fieldEntries fields = fieldEntriesFrom 0 fields` (proved below). -/
def fieldEntriesFrom (i : Nat) : List (String × List String) → List (List (String × ConversionSort))
  | [] => []
  | f :: fs => f.2.map (fun ty => (f.1, ConversionSort.mk i ty)) :: fieldEntriesFrom (i + 1) fs

/-- A record with two fields of the same declared type and no alternates:
`struct Dup { a: T, b: T }`. -/
def dupFields : List (String × List String) :=
  [("a", ["T"]), ("b", ["T"])]

/-- The derive example of the crate documentation
(src/state-validation/src/lib.rs lines 432-437): `UserWithUserName` with
`#[conversion(User)] user_id: UserID` and `username: String`. -/
def userWithUserNameFields : List (String × List String) :=
  [("user_id", ["UserID", "User"]), ("username", ["String"])]

/-! ### The concrete admin scenario
(crate documentation, src/state-validation/src/lib.rs lines 1-307) -/

/-- `UserID(usize)`. -/
structure UserID where
  id : Nat
deriving DecidableEq, Repr

/-- `User { id: UserID, username: String }`. -/
structure User where
  id : UserID
  username : String
deriving DecidableEq, Repr

/-- `AdminUser(User)`. -/
structure AdminUser where
  user : User
deriving DecidableEq, Repr

/-- `UserStorage { maps: HashMap<UserID, User> }`; the `HashMap` is modelled as
an association list queried with `lookup`. -/
structure UserStorage where
  maps : List (UserID × User)
deriving DecidableEq, Repr

/-- `UserDoesNotExistError`. -/
inductive UserDoesNotExistError where
  | mk : UserDoesNotExistError
deriving DecidableEq, Repr

/-- `UserIsNotAdminError`. -/
inductive UserIsNotAdminError where
  | mk : UserIsNotAdminError
deriving DecidableEq, Repr

/-- Transcription of `impl StateFilter<UserStorage, UserID> for UserExists`
(src/state-validation/src/lib.rs lines 85-95): look the id up in the map,
clone the user on a hit, otherwise `UserDoesNotExistError`. -/
def userExistsFilter (state : UserStorage) (userId : UserID) :
    Except UserDoesNotExistError User :=
  match state.maps.lookup userId with
  | some user => Except.ok user
  | none => Except.error UserDoesNotExistError.mk

/-- Transcription of `impl<State> StateFilter<State, User> for UserIsAdmin`
(src/state-validation/src/lib.rs lines 123-133): succeed with `AdminUser(user)`
exactly when `user.username == "ADMIN"`. -/
def userIsAdminFilter : St → User → Except UserIsNotAdminError AdminUser :=
  fun _ user =>
    if user.username = "ADMIN" then Except.ok (AdminUser.mk user)
    else Except.error UserIsNotAdminError.mk

/-- The two-step chain `(Condition<UserID, UserExists>, Condition<User,
UserIsAdmin>)` of the documentation's `RemoveAdmin` action, instantiated with
the base-case conversion edges: each step splits the running value for its own
type (empty remainder) and recombines with the empty-remainder `combine`. -/
def removeAdminChainFilter : UserStorage → UserID →
    Except (StateFilterTwoChainError UserDoesNotExistError UserIsNotAdminError) AdminUser :=
  twoChainFilter selfSplitTake userExistsFilter unitRemainderCombine
    selfSplitTake userIsAdminFilter unitRemainderCombine

/-- The storage of the documentation example: `UserID(0)` maps to
`User { id: UserID(0), username: "ADMIN" }`. -/
def adminStorage : UserStorage :=
  UserStorage.mk [(UserID.mk 0, User.mk (UserID.mk 0) "ADMIN")]

/-- The same storage with the stored user named `"GUEST"`. -/
def guestStorage : UserStorage :=
  UserStorage.mk [(UserID.mk 0, User.mk (UserID.mk 0) "GUEST")]

/-- The tuple arities for which src/state-validation/src/state_filter.rs
provides a `StateFilter` implementation for a tuple of `Condition` entries
(the impls transcribed above as `twoChainFilter` .. `eightChainFilter`):
2 through 8.  There is no implementation for a 1-tuple of `Condition`; a
single filter is used directly as the `Filter` associated type. -/
def chainImplArities : List Nat :=
  [2, 3, 4, 5, 6, 7, 8]

/-! ### Association-list lemmas used by the round-trip theorems -/

theorem lookup_append_some {l₁ l₂ : List (String × V)} {n : String} {v : V}
    (h : l₁.lookup n = some v) : (l₁ ++ l₂).lookup n = some v := by
  induction l₁ with
  | nil => simp [List.lookup] at h
  | cons p t ih =>
    by_cases hp : n = p.1
    · simpa [List.lookup, hp] using by simpa [List.lookup, hp] using h
    · simp only [List.cons_append, List.lookup, beq_eq_false_iff_ne.mpr hp] at h ⊢
      exact ih h

theorem lookup_append_none {l₁ l₂ : List (String × V)} {n : String}
    (h : l₁.lookup n = none) : (l₁ ++ l₂).lookup n = l₂.lookup n := by
  induction l₁ with
  | nil => simp
  | cons p t ih =>
    by_cases hp : n = p.1
    · simp [List.lookup, hp] at h
    · simp only [List.cons_append, List.lookup, beq_eq_false_iff_ne.mpr hp] at h ⊢
      exact ih h

theorem lookup_map_pair_self {subset : List String} {n : String} (g : String → V)
    (h : n ∈ subset) : (subset.map (fun m => (m, g m))).lookup n = some (g n) := by
  induction subset with
  | nil => simp at h
  | cons m t ih =>
    by_cases hm : n = m
    · simp [List.lookup, hm]
    · rcases List.mem_cons.mp h with h' | h'
      · exact absurd h' hm
      · simp only [List.map_cons, List.lookup, beq_eq_false_iff_ne.mpr hm]
        exact ih h'

theorem lookup_map_pair_none {subset : List String} {n : String} (g : String → V)
    (h : n ∉ subset) : (subset.map (fun m => (m, g m))).lookup n = none := by
  induction subset with
  | nil => simp [List.lookup]
  | cons m t ih =>
    have hm : n ≠ m := fun he => h (he ▸ List.mem_cons_self m t)
    simp only [List.map_cons, List.lookup, beq_eq_false_iff_ne.mpr hm]
    exact ih (fun ht => h (List.mem_cons_of_mem m ht))

theorem lookup_filter_preserved {r : List (String × V)} {subset : List String} {n : String}
    (h : n ∉ subset) :
    (r.filter (fun p => decide (p.1 ∉ subset))).lookup n = r.lookup n := by
  induction r with
  | nil => rfl
  | cons p t ih =>
    by_cases hp : n = p.1
    · have : (decide (p.1 ∉ subset)) = true := by simp [← hp, h]
      simp [List.filter, this, List.lookup, hp]
    · by_cases hk : p.1 ∉ subset
      · simp only [List.filter, decide_eq_true hk, List.lookup,
          beq_eq_false_iff_ne.mpr hp]
        exact ih
      · simp only [List.filter, decide_eq_false hk, List.lookup,
          beq_eq_false_iff_ne.mpr hp]
        exact ih

theorem lookup_isSome_of_mem_keys {r : List (String × V)} {n : String}
    (h : n ∈ r.map Prod.fst) : ∃ v, r.lookup n = some v := by
  induction r with
  | nil => simp at h
  | cons p t ih =>
    rw [List.map_cons] at h
    by_cases hp : n = p.1
    · exact ⟨p.2, by simp [List.lookup, hp]⟩
    · rcases List.mem_cons.mp h with h' | h'
      · exact absurd h' hp
      · obtain ⟨v, hv⟩ := ih h'
        exact ⟨v, by simp [List.lookup, beq_eq_false_iff_ne.mpr hp, hv]⟩

theorem map_fst_filter_key (q : String → Bool) (l : List (String × V)) :
    (l.filter (fun p => q p.1)).map Prod.fst = (l.map Prod.fst).filter q := by
  induction l with
  | nil => rfl
  | cons p t ih => by_cases h : q p.1 <;> simp [h, ih]

theorem lookup_self_getD [Inhabited V] :
    ∀ (r : List (String × V)), (r.map Prod.fst).Nodup →
      (r.map Prod.fst).map (fun n => (r.lookup n).getD default) = r.map Prod.snd := by
  intro r
  induction r with
  | nil => intro _; rfl
  | cons p t ih =>
    intro hr
    rw [List.map_cons] at hr
    have hp : p.1 ∉ t.map Prod.fst := (List.nodup_cons.mp hr).1
    have ht : (t.map Prod.fst).Nodup := (List.nodup_cons.mp hr).2
    simp only [List.map_cons]
    congr 1
    · simp [List.lookup]
    · have hcong : (t.map Prod.fst).map (fun n => (((p :: t).lookup n).getD default : V))
          = (t.map Prod.fst).map (fun n => ((t.lookup n).getD default : V)) := by
        refine List.map_congr_left ?_
        intro n hn
        have hne : n ≠ p.1 := fun he => hp (he ▸ hn)
        simp [List.lookup, beq_eq_false_iff_ne.mpr hne]
      rw [hcong, ih ht]

/-! ### Sorting lemmas for the registry keys -/

theorem sorted_perm_nodupNumbers_eq :
    ∀ {l₁ l₂ : List ConversionSort}, l₁.Sorted bySortNumber → l₂.Sorted bySortNumber →
      l₁.Perm l₂ → (l₁.map ConversionSort.sortNumber).Nodup → l₁ = l₂
  | [], l₂, _, _, hp, _ => (hp.nil_eq).symm ▸ rfl
  | a :: t₁, [], _, _, hp, _ => absurd hp.symm (by simp)
  | a :: t₁, b :: t₂, hs₁, hs₂, hp, hn => by
    have hab : a = b := by
      have ha₂ : a ∈ b :: t₂ := hp.mem_iff.mp (List.mem_cons_self a t₁)
      have hb₁ : b ∈ a :: t₁ := hp.mem_iff.mpr (List.mem_cons_self b t₂)
      rcases List.mem_cons.mp ha₂ with h | h
      · exact h
      · rcases List.mem_cons.mp hb₁ with h' | h'
        · exact h'.symm
        · have h1 : bySortNumber b a := (List.sorted_cons.mp hs₂).1 a h
          have h2 : bySortNumber a b := (List.sorted_cons.mp hs₁).1 b h'
          have heq : a.sortNumber = b.sortNumber := Nat.le_antisymm h2 h1
          rw [List.map_cons, List.nodup_cons] at hn
          exact absurd (heq ▸ List.mem_map_of_mem ConversionSort.sortNumber h') hn.1
    subst hab
    have ht : t₁.Perm t₂ := hp.cons_inv
    have := sorted_perm_nodupNumbers_eq (List.sorted_cons.mp hs₁).2
      (List.sorted_cons.mp hs₂).2 ht
      (by rw [List.map_cons, List.nodup_cons] at hn; exact hn.2)
    rw [this]

theorem sortKey_perm_invariant {l₁ l₂ : List ConversionSort}
    (hp : l₁.Perm l₂) (hn : (l₁.map ConversionSort.sortNumber).Nodup) :
    sortKey l₁ = sortKey l₂ := by
  have p₁ : (sortKey l₁).Perm l₁ := List.perm_insertionSort bySortNumber l₁
  have p₂ : (sortKey l₂).Perm l₂ := List.perm_insertionSort bySortNumber l₂
  refine sorted_perm_nodupNumbers_eq (List.sorted_insertionSort bySortNumber l₁)
    (List.sorted_insertionSort bySortNumber l₂) (p₁.trans (hp.trans p₂.symm)) ?_
  exact ((p₁.map ConversionSort.sortNumber).nodup_iff).mpr hn


/-! ### Structure of the registry enumeration

The lemmas below characterise the (subset, choice) enumeration of the
generation loops: membership in the cartesian product, strict ordering of a
choice's field indices, and injectivity of the sorted key over the whole
enumeration, leading to the universal no-collision result for the
registrations of any record. -/

theorem mem_cartesianChoices {S : List (List α)} {c : List α} :
    c ∈ cartesianChoices S ↔ List.Forall₂ (fun x l => x ∈ l) c S := by
  induction S generalizing c with
  | nil => simp [cartesianChoices, List.forall₂_nil_right_iff]
  | cons l ls ih =>
    simp only [cartesianChoices, List.mem_flatMap, List.mem_map, List.forall₂_cons_right_iff]
    constructor
    · rintro ⟨x, hx, c', hc', rfl⟩
      exact ⟨x, c', hx, ih.mp hc', rfl⟩
    · rintro ⟨a, l', ha, hf, rfl⟩
      exact ⟨a, ha, l', ih.mpr hf, rfl⟩

theorem mem_of_mem_choice :
    ∀ {S : List (List α)} {c : List α}, List.Forall₂ (fun x l => x ∈ l) c S →
      ∀ y ∈ c, ∃ l ∈ S, y ∈ l
  | _, _, List.Forall₂.nil => by simp
  | _, _, List.Forall₂.cons hx hf => by
    intro y hy
    rcases List.mem_cons.mp hy with rfl | hy
    · exact ⟨_, List.mem_cons_self _ _, hx⟩
    · obtain ⟨l, hl, hyl⟩ := mem_of_mem_choice hf y hy
      exact ⟨l, List.mem_cons_of_mem _ hl, hyl⟩

theorem choice_pairwise_lt :
    ∀ {S : List (List (String × ConversionSort))} {c}, S.Pairwise entryLt →
      List.Forall₂ (fun x l => x ∈ l) c S →
      (c.map Prod.snd).Pairwise (fun a b => a.sortNumber < b.sortNumber)
  | _, _, _, List.Forall₂.nil => by simp
  | _, _, hS, List.Forall₂.cons hx hf => by
    rw [List.pairwise_cons] at hS
    rw [List.map_cons, List.pairwise_cons]
    refine ⟨?_, choice_pairwise_lt hS.2 hf⟩
    intro b hb
    obtain ⟨y, hy, rfl⟩ := List.mem_map.mp hb
    obtain ⟨l', hl', hyl'⟩ := mem_of_mem_choice hf y hy
    exact hS.1 l' hl' _ hx _ hyl'

theorem choice_sortKey_eq {S : List (List (String × ConversionSort))} {c}
    (hS : S.Pairwise entryLt) (hc : List.Forall₂ (fun x l => x ∈ l) c S) :
    sortKey (c.map Prod.snd) = c.map Prod.snd :=
  List.Sorted.insertionSort_eq
    ((choice_pairwise_lt hS hc).imp (fun h => Nat.le_of_lt h))

theorem cart_keys_nodup : ∀ {S : List (List (String × ConversionSort))},
    (∀ l ∈ S, (l.map Prod.snd).Nodup) →
    ((cartesianChoices S).map (fun c => c.map Prod.snd)).Nodup
  | [], _ => by simp [cartesianChoices]
  | l :: S', h => by
    rw [cartesianChoices, List.map_flatMap]
    refine List.nodup_flatMap.mpr ⟨?_, ?_⟩
    · intro x _
      rw [List.map_map]
      have h1 : ((fun c : List (String × ConversionSort) => c.map Prod.snd) ∘ (fun c => x :: c))
          = (fun t => x.2 :: t) ∘ (fun c : List (String × ConversionSort) => c.map Prod.snd) := rfl
      rw [h1, ← List.map_map]
      refine (cart_keys_nodup (fun l' hl' => h l' (List.mem_cons_of_mem _ hl'))).map ?_
      intro t₁ t₂ ht
      injection ht
    · have hl : (l.map Prod.snd).Nodup := h l (List.mem_cons_self _ _)
      have hl' : l.Pairwise (fun x y => x.2 ≠ y.2) := by
        rw [List.Nodup, List.pairwise_map] at hl
        exact hl
      refine hl'.imp ?_
      intro x y hxy
      intro t ht₁ ht₂
      simp only [List.mem_map] at ht₁ ht₂
      obtain ⟨c₁, ⟨d₁, _, rfl⟩, rfl⟩ := ht₁
      obtain ⟨c₂, ⟨d₂, _, rfl⟩, heq⟩ := ht₂
      rw [List.map_cons, List.map_cons] at heq
      injection heq with h1 _
      exact hxy h1.symm

theorem choice_key_inj {ls : List (List (String × ConversionSort))}
    (hnum : ∀ l ∈ ls, ∀ a ∈ l, ∀ b ∈ l, a.2.sortNumber = b.2.sortNumber)
    (hname : ∀ l ∈ ls, ∀ a ∈ l, ∀ b ∈ l, a.1 = b.1)
    (hdis : ∀ l₁ ∈ ls, ∀ l₂ ∈ ls, ∀ a₁ ∈ l₁, ∀ a₂ ∈ l₂,
      a₁.2.sortNumber = a₂.2.sortNumber → l₁ = l₂) :
    ∀ {S₁ S₂ c₁ c₂}, List.Sublist S₁ ls → List.Sublist S₂ ls →
      List.Forall₂ (fun x l => x ∈ l) c₁ S₁ → List.Forall₂ (fun x l => x ∈ l) c₂ S₂ →
      c₁.map Prod.snd = c₂.map Prod.snd → S₁ = S₂ ∧ c₁ = c₂
  | _, _, _, _, _, _, List.Forall₂.nil, List.Forall₂.nil, _ => ⟨rfl, rfl⟩
  | _, _, _, _, _, _, List.Forall₂.nil, List.Forall₂.cons _ _, heq => by simp at heq
  | _, _, _, _, _, _, List.Forall₂.cons _ _, List.Forall₂.nil, heq => by simp at heq
  | _, _, _, _, hs₁, hs₂, List.Forall₂.cons hx hf₁, List.Forall₂.cons hy hf₂, heq => by
    rw [List.map_cons, List.map_cons] at heq
    injection heq with h1 h2
    have hl₁ := hs₁.subset (List.mem_cons_self _ _)
    have hl₂ := hs₂.subset (List.mem_cons_self _ _)
    have hll := hdis _ hl₁ _ hl₂ _ hx _ hy (congrArg ConversionSort.sortNumber h1)
    subst hll
    have hxy : _ = _ := Prod.ext (hname _ hl₁ _ hx _ hy) h1
    have hrec := choice_key_inj hnum hname hdis
      ((List.sublist_cons_self _ _).trans hs₁) ((List.sublist_cons_self _ _).trans hs₂) hf₁ hf₂ h2
    exact ⟨by rw [hrec.1], by rw [hxy, hrec.2]⟩

theorem mem_powersetBySize_sublist {ls : List α} {S : List α}
    (h : S ∈ powersetBySize ls) : List.Sublist S ls := by
  rw [powersetBySize, List.mem_flatMap] at h
  obtain ⟨k, _, hSk⟩ := h
  exact (List.mem_sublistsLen.mp hSk).1

theorem powersetBySize_nodup {ls : List α} (h : ls.Nodup) : (powersetBySize ls).Nodup := by
  rw [powersetBySize]
  refine List.nodup_flatMap.mpr ⟨?_, ?_⟩
  · intro k _
    exact (List.nodup_sublists'.mpr h).sublist (List.sublistsLen_sublist_sublists' ..)
  · refine (List.pairwise_lt_range _).imp ?_
    intro k₁ k₂ hlt
    intro S hS₁ hS₂
    rw [List.mem_sublistsLen] at hS₁ hS₂
    omega

theorem conversionChoices_keys_nodup {ls : List (List (String × ConversionSort))}
    (hne : ∀ l ∈ ls, l ≠ [])
    (hsnd : ∀ l ∈ ls, (l.map Prod.snd).Nodup)
    (hnum : ∀ l ∈ ls, ∀ a ∈ l, ∀ b ∈ l, a.2.sortNumber = b.2.sortNumber)
    (hname : ∀ l ∈ ls, ∀ a ∈ l, ∀ b ∈ l, a.1 = b.1)
    (hlt : ls.Pairwise entryLt) :
    (((powersetBySize ls).flatMap cartesianChoices).map
      (fun c => sortKey (c.map Prod.snd))).Nodup := by
  have hsym : ∀ l₁ ∈ ls, ∀ l₂ ∈ ls, l₁ ≠ l₂ → entryLt l₁ l₂ ∨ entryLt l₂ l₁ := by
    intro l₁ h₁ l₂ h₂ hne'
    have hp : ls.Pairwise (fun a b => entryLt a b ∨ entryLt b a) :=
      hlt.imp (fun h => Or.inl h)
    exact hp.forall (fun a b h => h.symm) h₁ h₂ hne'
  have hdis : ∀ l₁ ∈ ls, ∀ l₂ ∈ ls, ∀ a₁ ∈ l₁, ∀ a₂ ∈ l₂,
      a₁.2.sortNumber = a₂.2.sortNumber → l₁ = l₂ := by
    intro l₁ h₁ l₂ h₂ a₁ ha₁ a₂ ha₂ heq
    by_contra hne'
    rcases hsym l₁ h₁ l₂ h₂ hne' with h | h
    · exact absurd heq (Nat.ne_of_lt (h a₁ ha₁ a₂ ha₂))
    · exact absurd heq.symm (Nat.ne_of_lt (h a₂ ha₂ a₁ ha₁))
  have hnd : ls.Nodup := by
    refine hlt.imp_of_mem ?_
    intro l₁ l₂ h₁ _ hR hEq
    subst hEq
    obtain ⟨a, ha⟩ := List.exists_mem_of_ne_nil l₁ (hne l₁ h₁)
    exact absurd (hR a ha a ha) (lt_irrefl _)
  have hkeys : ((powersetBySize ls).flatMap cartesianChoices).map
        (fun c => sortKey (c.map Prod.snd))
      = ((powersetBySize ls).flatMap cartesianChoices).map (fun c => c.map Prod.snd) := by
    refine List.map_congr_left ?_
    intro c hc
    rw [List.mem_flatMap] at hc
    obtain ⟨Ss, hS, hcS⟩ := hc
    have hsub := mem_powersetBySize_sublist hS
    exact choice_sortKey_eq (hlt.sublist hsub) (mem_cartesianChoices.mp hcS)
  rw [hkeys, List.map_flatMap]
  refine List.nodup_flatMap.mpr ⟨?_, ?_⟩
  · intro Ss hS
    have hsub := mem_powersetBySize_sublist hS
    exact cart_keys_nodup (fun l hl => hsnd l (hsub.subset hl))
  · refine (powersetBySize_nodup hnd).imp_of_mem ?_
    intro S₁ S₂ h₁ h₂ hne'
    intro t ht₁ ht₂
    rw [List.mem_map] at ht₁ ht₂
    obtain ⟨c₁, hc₁, rfl⟩ := ht₁
    obtain ⟨c₂, hc₂, heq⟩ := ht₂
    exact hne' (choice_key_inj hnum hname hdis
      (mem_powersetBySize_sublist h₁) (mem_powersetBySize_sublist h₂)
      (mem_cartesianChoices.mp hc₁) (mem_cartesianChoices.mp hc₂) heq.symm).1


theorem fieldEntries_eq_from (fields : List (String × List String)) :
    fieldEntries fields = fieldEntriesFrom 0 fields := by
  have h : ∀ (i : Nat) (fs : List (String × List String)),
      (List.enumFrom i fs).map
        (fun p => p.2.2.map (fun ty => (p.2.1, ConversionSort.mk p.1 ty)))
      = fieldEntriesFrom i fs := by
    intro i fs
    induction fs generalizing i with
    | nil => rfl
    | cons f fs ih => simp only [List.enumFrom, List.map_cons, fieldEntriesFrom, ih]
  exact h 0 fields

theorem mem_fieldEntriesFrom :
    ∀ {i : Nat} {fs : List (String × List String)} {l}, l ∈ fieldEntriesFrom i fs →
      ∃ j name tys, i ≤ j ∧ (name, tys) ∈ fs
        ∧ l = tys.map (fun ty => (name, ConversionSort.mk j ty))
  | i, f :: fs, l, h => by
    rcases List.mem_cons.mp h with rfl | h
    · exact ⟨i, f.1, f.2, Nat.le_refl i, Prod.mk.eta ▸ List.mem_cons_self f fs, rfl⟩
    · obtain ⟨j, name, tys, hij, hmem, rfl⟩ := mem_fieldEntriesFrom h
      exact ⟨j, name, tys, Nat.le_of_succ_le hij, List.mem_cons_of_mem _ hmem, rfl⟩

theorem fieldEntriesFrom_num_le :
    ∀ {i : Nat} {fs : List (String × List String)} {l a}, l ∈ fieldEntriesFrom i fs →
      a ∈ l → i ≤ a.2.sortNumber := by
  intro i fs l a hl ha
  obtain ⟨j, name, tys, hij, _, rfl⟩ := mem_fieldEntriesFrom hl
  obtain ⟨ty, _, rfl⟩ := List.mem_map.mp ha
  simpa using hij

theorem fieldEntriesFrom_pairwise :
    ∀ (i : Nat) (fs : List (String × List String)), (fieldEntriesFrom i fs).Pairwise entryLt
  | _, [] => List.Pairwise.nil
  | i, f :: fs => by
    refine List.Pairwise.cons ?_ (fieldEntriesFrom_pairwise (i + 1) fs)
    intro l' hl' a ha b hb
    obtain ⟨ty, _, rfl⟩ := List.mem_map.mp ha
    have hb' := fieldEntriesFrom_num_le hl' hb
    simpa using Nat.lt_of_lt_of_le (Nat.lt_succ_self i) hb'

theorem lookup_eq_of_mem_nodupKeys {α β : Type} [BEq α] [LawfulBEq α] :
    ∀ {m : List (α × β)} {k : α} {v : β}, (k, v) ∈ m → (m.map Prod.fst).Nodup →
      m.lookup k = some v
  | (k₀, v₀) :: t, k, v, hm, hn => by
    rw [List.map_cons, List.nodup_cons] at hn
    rcases List.mem_cons.mp hm with h | h
    · obtain ⟨rfl, rfl⟩ := Prod.mk.injEq .. ▸ h
      simp [List.lookup]
    · have hk : k ≠ k₀ := by
        rintro rfl
        exact hn.1 (List.mem_map.mpr ⟨(k, v), h, rfl⟩)
      simp only [List.lookup, beq_eq_false_iff_ne.mpr hk]
      exact lookup_eq_of_mem_nodupKeys h hn.2

theorem combinationRegistrations_map_fst (fields : List (String × List String)) :
    (combinationRegistrations fields).map Prod.fst
      = (conversionChoices fields).map (fun c => sortKey (c.map Prod.snd)) := by
  rw [combinationRegistrations, List.map_map]
  have h2 : ((fun p : List ConversionSort × Nat => p.1)
        ∘ fun p : Nat × List (String × ConversionSort) => (sortKey (p.2.map Prod.snd), p.1))
      = (fun c => sortKey (c.map Prod.snd)) ∘ Prod.snd := rfl
  rw [h2, ← List.map_map, List.enum_map_snd]

theorem registry_keys_nodup_lookup (fields : List (String × List String))
    (hne : ∀ f ∈ fields, f.2 ≠ []) (hnd : ∀ f ∈ fields, f.2.Nodup) :
    ((combinationRegistrations fields).map Prod.fst).Nodup
    ∧ ∀ p ∈ combinationRegistrations fields,
        registryLookup (combinationRegistrations fields) p.1 = some p.2 := by
  have hkeys : ((combinationRegistrations fields).map Prod.fst).Nodup := by
    rw [combinationRegistrations_map_fst, conversionChoices, fieldEntries_eq_from]
    refine conversionChoices_keys_nodup ?_ ?_ ?_ ?_ (fieldEntriesFrom_pairwise 0 fields)
    · intro l hl
      obtain ⟨j, name, tys, _, hmem, rfl⟩ := mem_fieldEntriesFrom hl
      simpa using hne (name, tys) hmem
    · intro l hl
      obtain ⟨j, name, tys, _, hmem, rfl⟩ := mem_fieldEntriesFrom hl
      rw [List.map_map]
      have h1 : ((fun p : String × ConversionSort => p.2)
            ∘ fun ty => (name, ConversionSort.mk j ty)) = ConversionSort.mk j := rfl
      rw [h1]
      refine (hnd (name, tys) hmem).map ?_
      intro t₁ t₂ h
      simpa using congrArg ConversionSort.ty h
    · intro l hl a ha b hb
      obtain ⟨j, name, tys, _, _, rfl⟩ := mem_fieldEntriesFrom hl
      obtain ⟨ty₁, _, rfl⟩ := List.mem_map.mp ha
      obtain ⟨ty₂, _, rfl⟩ := List.mem_map.mp hb
      rfl
    · intro l hl a ha b hb
      obtain ⟨j, name, tys, _, _, rfl⟩ := mem_fieldEntriesFrom hl
      obtain ⟨ty₁, _, rfl⟩ := List.mem_map.mp ha
      obtain ⟨ty₂, _, rfl⟩ := List.mem_map.mp hb
      rfl
  refine ⟨hkeys, ?_⟩
  intro p hp
  rw [registryLookup]
  have hrev : (p.1, p.2) ∈ (combinationRegistrations fields).reverse :=
    List.mem_reverse.mpr (by simpa using hp)
  refine lookup_eq_of_mem_nodupKeys hrev ?_
  rw [List.map_reverse]
  exact List.nodup_reverse.mpr hkeys

/-- C1: in every chain of 2 to 8 steps, if the steps before step `i` succeed and
step `i` fails with error `e`, the chain returns the step-`i` tagged error wrapping
`e` unchanged.  The filters of all later steps are universally quantified and do not
appear in any hypothesis, so the result is independent of them: no later filter
runs.  The conjuncts are ordered by arity 2..8 and failing step 0-based `i`. -/
theorem chain_first_failure_short_circuit :
    (∀ (split0 : A → I0 × R0) (f0 : St → I0 → Except E0 O0) (comb0 : R0 → O0 → C0)
      (split1 : C0 → I1 × R1) (f1 : St → I1 → Except E1 O1) (comb1 : R1 → O1 → C1)
      (state : St) (value : A)
      (e : E0),
      f0 state (split0 value).1 = Except.error e →
      twoChainFilter split0 f0 comb0 split1 f1 comb1 state value
        = Except.error (StateFilterTwoChainError.Filter0 e))
    ∧ (∀ (split0 : A → I0 × R0) (f0 : St → I0 → Except E0 O0) (comb0 : R0 → O0 → C0)
      (split1 : C0 → I1 × R1) (f1 : St → I1 → Except E1 O1) (comb1 : R1 → O1 → C1)
      (state : St) (value : A)
      (o0 : O0) (v1 : C0)
      (e : E1),
      f0 state (split0 value).1 = Except.ok o0 →
      comb0 (split0 value).2 o0 = v1 →
      f1 state (split1 v1).1 = Except.error e →
      twoChainFilter split0 f0 comb0 split1 f1 comb1 state value
        = Except.error (StateFilterTwoChainError.Filter1 e))
    ∧ (∀ (split0 : A → I0 × R0) (f0 : St → I0 → Except E0 O0) (comb0 : R0 → O0 → C0)
      (split1 : C0 → I1 × R1) (f1 : St → I1 → Except E1 O1) (comb1 : R1 → O1 → C1)
      (split2 : C1 → I2 × R2) (f2 : St → I2 → Except E2 O2) (comb2 : R2 → O2 → C2)
      (state : St) (value : A)
      (e : E0),
      f0 state (split0 value).1 = Except.error e →
      threeChainFilter split0 f0 comb0 split1 f1 comb1 split2 f2 comb2 state value
        = Except.error (StateFilterThreeChainError.Filter0 e))
    ∧ (∀ (split0 : A → I0 × R0) (f0 : St → I0 → Except E0 O0) (comb0 : R0 → O0 → C0)
      (split1 : C0 → I1 × R1) (f1 : St → I1 → Except E1 O1) (comb1 : R1 → O1 → C1)
      (split2 : C1 → I2 × R2) (f2 : St → I2 → Except E2 O2) (comb2 : R2 → O2 → C2)
      (state : St) (value : A)
      (o0 : O0) (v1 : C0)
      (e : E1),
      f0 state (split0 value).1 = Except.ok o0 →
      comb0 (split0 value).2 o0 = v1 →
      f1 state (split1 v1).1 = Except.error e →
      threeChainFilter split0 f0 comb0 split1 f1 comb1 split2 f2 comb2 state value
        = Except.error (StateFilterThreeChainError.Filter1 e))
    ∧ (∀ (split0 : A → I0 × R0) (f0 : St → I0 → Except E0 O0) (comb0 : R0 → O0 → C0)
      (split1 : C0 → I1 × R1) (f1 : St → I1 → Except E1 O1) (comb1 : R1 → O1 → C1)
      (split2 : C1 → I2 × R2) (f2 : St → I2 → Except E2 O2) (comb2 : R2 → O2 → C2)
      (state : St) (value : A)
      (o0 : O0) (v1 : C0) (o1 : O1) (v2 : C1)
      (e : E2),
      f0 state (split0 value).1 = Except.ok o0 →
      comb0 (split0 value).2 o0 = v1 →
      f1 state (split1 v1).1 = Except.ok o1 →
      comb1 (split1 v1).2 o1 = v2 →
      f2 state (split2 v2).1 = Except.error e →
      threeChainFilter split0 f0 comb0 split1 f1 comb1 split2 f2 comb2 state value
        = Except.error (StateFilterThreeChainError.Filter2 e))
    ∧ (∀ (split0 : A → I0 × R0) (f0 : St → I0 → Except E0 O0) (comb0 : R0 → O0 → C0)
      (split1 : C0 → I1 × R1) (f1 : St → I1 → Except E1 O1) (comb1 : R1 → O1 → C1)
      (split2 : C1 → I2 × R2) (f2 : St → I2 → Except E2 O2) (comb2 : R2 → O2 → C2)
      (split3 : C2 → I3 × R3) (f3 : St → I3 → Except E3 O3) (comb3 : R3 → O3 → C3)
      (state : St) (value : A)
      (e : E0),
      f0 state (split0 value).1 = Except.error e →
      fourChainFilter split0 f0 comb0 split1 f1 comb1 split2 f2 comb2 split3 f3 comb3 state value
        = Except.error (StateFilterFourChainError.Filter0 e))
    ∧ (∀ (split0 : A → I0 × R0) (f0 : St → I0 → Except E0 O0) (comb0 : R0 → O0 → C0)
      (split1 : C0 → I1 × R1) (f1 : St → I1 → Except E1 O1) (comb1 : R1 → O1 → C1)
      (split2 : C1 → I2 × R2) (f2 : St → I2 → Except E2 O2) (comb2 : R2 → O2 → C2)
      (split3 : C2 → I3 × R3) (f3 : St → I3 → Except E3 O3) (comb3 : R3 → O3 → C3)
      (state : St) (value : A)
      (o0 : O0) (v1 : C0)
      (e : E1),
      f0 state (split0 value).1 = Except.ok o0 →
      comb0 (split0 value).2 o0 = v1 →
      f1 state (split1 v1).1 = Except.error e →
      fourChainFilter split0 f0 comb0 split1 f1 comb1 split2 f2 comb2 split3 f3 comb3 state value
        = Except.error (StateFilterFourChainError.Filter1 e))
    ∧ (∀ (split0 : A → I0 × R0) (f0 : St → I0 → Except E0 O0) (comb0 : R0 → O0 → C0)
      (split1 : C0 → I1 × R1) (f1 : St → I1 → Except E1 O1) (comb1 : R1 → O1 → C1)
      (split2 : C1 → I2 × R2) (f2 : St → I2 → Except E2 O2) (comb2 : R2 → O2 → C2)
      (split3 : C2 → I3 × R3) (f3 : St → I3 → Except E3 O3) (comb3 : R3 → O3 → C3)
      (state : St) (value : A)
      (o0 : O0) (v1 : C0) (o1 : O1) (v2 : C1)
      (e : E2),
      f0 state (split0 value).1 = Except.ok o0 →
      comb0 (split0 value).2 o0 = v1 →
      f1 state (split1 v1).1 = Except.ok o1 →
      comb1 (split1 v1).2 o1 = v2 →
      f2 state (split2 v2).1 = Except.error e →
      fourChainFilter split0 f0 comb0 split1 f1 comb1 split2 f2 comb2 split3 f3 comb3 state value
        = Except.error (StateFilterFourChainError.Filter2 e))
    ∧ (∀ (split0 : A → I0 × R0) (f0 : St → I0 → Except E0 O0) (comb0 : R0 → O0 → C0)
      (split1 : C0 → I1 × R1) (f1 : St → I1 → Except E1 O1) (comb1 : R1 → O1 → C1)
      (split2 : C1 → I2 × R2) (f2 : St → I2 → Except E2 O2) (comb2 : R2 → O2 → C2)
      (split3 : C2 → I3 × R3) (f3 : St → I3 → Except E3 O3) (comb3 : R3 → O3 → C3)
      (state : St) (value : A)
      (o0 : O0) (v1 : C0) (o1 : O1) (v2 : C1) (o2 : O2) (v3 : C2)
      (e : E3),
      f0 state (split0 value).1 = Except.ok o0 →
      comb0 (split0 value).2 o0 = v1 →
      f1 state (split1 v1).1 = Except.ok o1 →
      comb1 (split1 v1).2 o1 = v2 →
      f2 state (split2 v2).1 = Except.ok o2 →
      comb2 (split2 v2).2 o2 = v3 →
      f3 state (split3 v3).1 = Except.error e →
      fourChainFilter split0 f0 comb0 split1 f1 comb1 split2 f2 comb2 split3 f3 comb3 state value
        = Except.error (StateFilterFourChainError.Filter3 e))
    ∧ (∀ (split0 : A → I0 × R0) (f0 : St → I0 → Except E0 O0) (comb0 : R0 → O0 → C0)
      (split1 : C0 → I1 × R1) (f1 : St → I1 → Except E1 O1) (comb1 : R1 → O1 → C1)
      (split2 : C1 → I2 × R2) (f2 : St → I2 → Except E2 O2) (comb2 : R2 → O2 → C2)
      (split3 : C2 → I3 × R3) (f3 : St → I3 → Except E3 O3) (comb3 : R3 → O3 → C3)
      (split4 : C3 → I4 × R4) (f4 : St → I4 → Except E4 O4) (comb4 : R4 → O4 → C4)
      (state : St) (value : A)
      (e : E0),
      f0 state (split0 value).1 = Except.error e →
      fiveChainFilter split0 f0 comb0 split1 f1 comb1 split2 f2 comb2 split3 f3 comb3 split4 f4 comb4 state value
        = Except.error (StateFilterFiveChainError.Filter0 e))
    ∧ (∀ (split0 : A → I0 × R0) (f0 : St → I0 → Except E0 O0) (comb0 : R0 → O0 → C0)
      (split1 : C0 → I1 × R1) (f1 : St → I1 → Except E1 O1) (comb1 : R1 → O1 → C1)
      (split2 : C1 → I2 × R2) (f2 : St → I2 → Except E2 O2) (comb2 : R2 → O2 → C2)
      (split3 : C2 → I3 × R3) (f3 : St → I3 → Except E3 O3) (comb3 : R3 → O3 → C3)
      (split4 : C3 → I4 × R4) (f4 : St → I4 → Except E4 O4) (comb4 : R4 → O4 → C4)
      (state : St) (value : A)
      (o0 : O0) (v1 : C0)
      (e : E1),
      f0 state (split0 value).1 = Except.ok o0 →
      comb0 (split0 value).2 o0 = v1 →
      f1 state (split1 v1).1 = Except.error e →
      fiveChainFilter split0 f0 comb0 split1 f1 comb1 split2 f2 comb2 split3 f3 comb3 split4 f4 comb4 state value
        = Except.error (StateFilterFiveChainError.Filter1 e))
    ∧ (∀ (split0 : A → I0 × R0) (f0 : St → I0 → Except E0 O0) (comb0 : R0 → O0 → C0)
      (split1 : C0 → I1 × R1) (f1 : St → I1 → Except E1 O1) (comb1 : R1 → O1 → C1)
      (split2 : C1 → I2 × R2) (f2 : St → I2 → Except E2 O2) (comb2 : R2 → O2 → C2)
      (split3 : C2 → I3 × R3) (f3 : St → I3 → Except E3 O3) (comb3 : R3 → O3 → C3)
      (split4 : C3 → I4 × R4) (f4 : St → I4 → Except E4 O4) (comb4 : R4 → O4 → C4)
      (state : St) (value : A)
      (o0 : O0) (v1 : C0) (o1 : O1) (v2 : C1)
      (e : E2),
      f0 state (split0 value).1 = Except.ok o0 →
      comb0 (split0 value).2 o0 = v1 →
      f1 state (split1 v1).1 = Except.ok o1 →
      comb1 (split1 v1).2 o1 = v2 →
      f2 state (split2 v2).1 = Except.error e →
      fiveChainFilter split0 f0 comb0 split1 f1 comb1 split2 f2 comb2 split3 f3 comb3 split4 f4 comb4 state value
        = Except.error (StateFilterFiveChainError.Filter2 e))
    ∧ (∀ (split0 : A → I0 × R0) (f0 : St → I0 → Except E0 O0) (comb0 : R0 → O0 → C0)
      (split1 : C0 → I1 × R1) (f1 : St → I1 → Except E1 O1) (comb1 : R1 → O1 → C1)
      (split2 : C1 → I2 × R2) (f2 : St → I2 → Except E2 O2) (comb2 : R2 → O2 → C2)
      (split3 : C2 → I3 × R3) (f3 : St → I3 → Except E3 O3) (comb3 : R3 → O3 → C3)
      (split4 : C3 → I4 × R4) (f4 : St → I4 → Except E4 O4) (comb4 : R4 → O4 → C4)
      (state : St) (value : A)
      (o0 : O0) (v1 : C0) (o1 : O1) (v2 : C1) (o2 : O2) (v3 : C2)
      (e : E3),
      f0 state (split0 value).1 = Except.ok o0 →
      comb0 (split0 value).2 o0 = v1 →
      f1 state (split1 v1).1 = Except.ok o1 →
      comb1 (split1 v1).2 o1 = v2 →
      f2 state (split2 v2).1 = Except.ok o2 →
      comb2 (split2 v2).2 o2 = v3 →
      f3 state (split3 v3).1 = Except.error e →
      fiveChainFilter split0 f0 comb0 split1 f1 comb1 split2 f2 comb2 split3 f3 comb3 split4 f4 comb4 state value
        = Except.error (StateFilterFiveChainError.Filter3 e))
    ∧ (∀ (split0 : A → I0 × R0) (f0 : St → I0 → Except E0 O0) (comb0 : R0 → O0 → C0)
      (split1 : C0 → I1 × R1) (f1 : St → I1 → Except E1 O1) (comb1 : R1 → O1 → C1)
      (split2 : C1 → I2 × R2) (f2 : St → I2 → Except E2 O2) (comb2 : R2 → O2 → C2)
      (split3 : C2 → I3 × R3) (f3 : St → I3 → Except E3 O3) (comb3 : R3 → O3 → C3)
      (split4 : C3 → I4 × R4) (f4 : St → I4 → Except E4 O4) (comb4 : R4 → O4 → C4)
      (state : St) (value : A)
      (o0 : O0) (v1 : C0) (o1 : O1) (v2 : C1) (o2 : O2) (v3 : C2) (o3 : O3) (v4 : C3)
      (e : E4),
      f0 state (split0 value).1 = Except.ok o0 →
      comb0 (split0 value).2 o0 = v1 →
      f1 state (split1 v1).1 = Except.ok o1 →
      comb1 (split1 v1).2 o1 = v2 →
      f2 state (split2 v2).1 = Except.ok o2 →
      comb2 (split2 v2).2 o2 = v3 →
      f3 state (split3 v3).1 = Except.ok o3 →
      comb3 (split3 v3).2 o3 = v4 →
      f4 state (split4 v4).1 = Except.error e →
      fiveChainFilter split0 f0 comb0 split1 f1 comb1 split2 f2 comb2 split3 f3 comb3 split4 f4 comb4 state value
        = Except.error (StateFilterFiveChainError.Filter4 e))
    ∧ (∀ (split0 : A → I0 × R0) (f0 : St → I0 → Except E0 O0) (comb0 : R0 → O0 → C0)
      (split1 : C0 → I1 × R1) (f1 : St → I1 → Except E1 O1) (comb1 : R1 → O1 → C1)
      (split2 : C1 → I2 × R2) (f2 : St → I2 → Except E2 O2) (comb2 : R2 → O2 → C2)
      (split3 : C2 → I3 × R3) (f3 : St → I3 → Except E3 O3) (comb3 : R3 → O3 → C3)
      (split4 : C3 → I4 × R4) (f4 : St → I4 → Except E4 O4) (comb4 : R4 → O4 → C4)
      (split5 : C4 → I5 × R5) (f5 : St → I5 → Except E5 O5) (comb5 : R5 → O5 → C5)
      (state : St) (value : A)
      (e : E0),
      f0 state (split0 value).1 = Except.error e →
      sixChainFilter split0 f0 comb0 split1 f1 comb1 split2 f2 comb2 split3 f3 comb3 split4 f4 comb4 split5 f5 comb5 state value
        = Except.error (StateFilterSixChainError.Filter0 e))
    ∧ (∀ (split0 : A → I0 × R0) (f0 : St → I0 → Except E0 O0) (comb0 : R0 → O0 → C0)
      (split1 : C0 → I1 × R1) (f1 : St → I1 → Except E1 O1) (comb1 : R1 → O1 → C1)
      (split2 : C1 → I2 × R2) (f2 : St → I2 → Except E2 O2) (comb2 : R2 → O2 → C2)
      (split3 : C2 → I3 × R3) (f3 : St → I3 → Except E3 O3) (comb3 : R3 → O3 → C3)
      (split4 : C3 → I4 × R4) (f4 : St → I4 → Except E4 O4) (comb4 : R4 → O4 → C4)
      (split5 : C4 → I5 × R5) (f5 : St → I5 → Except E5 O5) (comb5 : R5 → O5 → C5)
      (state : St) (value : A)
      (o0 : O0) (v1 : C0)
      (e : E1),
      f0 state (split0 value).1 = Except.ok o0 →
      comb0 (split0 value).2 o0 = v1 →
      f1 state (split1 v1).1 = Except.error e →
      sixChainFilter split0 f0 comb0 split1 f1 comb1 split2 f2 comb2 split3 f3 comb3 split4 f4 comb4 split5 f5 comb5 state value
        = Except.error (StateFilterSixChainError.Filter1 e))
    ∧ (∀ (split0 : A → I0 × R0) (f0 : St → I0 → Except E0 O0) (comb0 : R0 → O0 → C0)
      (split1 : C0 → I1 × R1) (f1 : St → I1 → Except E1 O1) (comb1 : R1 → O1 → C1)
      (split2 : C1 → I2 × R2) (f2 : St → I2 → Except E2 O2) (comb2 : R2 → O2 → C2)
      (split3 : C2 → I3 × R3) (f3 : St → I3 → Except E3 O3) (comb3 : R3 → O3 → C3)
      (split4 : C3 → I4 × R4) (f4 : St → I4 → Except E4 O4) (comb4 : R4 → O4 → C4)
      (split5 : C4 → I5 × R5) (f5 : St → I5 → Except E5 O5) (comb5 : R5 → O5 → C5)
      (state : St) (value : A)
      (o0 : O0) (v1 : C0) (o1 : O1) (v2 : C1)
      (e : E2),
      f0 state (split0 value).1 = Except.ok o0 →
      comb0 (split0 value).2 o0 = v1 →
      f1 state (split1 v1).1 = Except.ok o1 →
      comb1 (split1 v1).2 o1 = v2 →
      f2 state (split2 v2).1 = Except.error e →
      sixChainFilter split0 f0 comb0 split1 f1 comb1 split2 f2 comb2 split3 f3 comb3 split4 f4 comb4 split5 f5 comb5 state value
        = Except.error (StateFilterSixChainError.Filter2 e))
    ∧ (∀ (split0 : A → I0 × R0) (f0 : St → I0 → Except E0 O0) (comb0 : R0 → O0 → C0)
      (split1 : C0 → I1 × R1) (f1 : St → I1 → Except E1 O1) (comb1 : R1 → O1 → C1)
      (split2 : C1 → I2 × R2) (f2 : St → I2 → Except E2 O2) (comb2 : R2 → O2 → C2)
      (split3 : C2 → I3 × R3) (f3 : St → I3 → Except E3 O3) (comb3 : R3 → O3 → C3)
      (split4 : C3 → I4 × R4) (f4 : St → I4 → Except E4 O4) (comb4 : R4 → O4 → C4)
      (split5 : C4 → I5 × R5) (f5 : St → I5 → Except E5 O5) (comb5 : R5 → O5 → C5)
      (state : St) (value : A)
      (o0 : O0) (v1 : C0) (o1 : O1) (v2 : C1) (o2 : O2) (v3 : C2)
      (e : E3),
      f0 state (split0 value).1 = Except.ok o0 →
      comb0 (split0 value).2 o0 = v1 →
      f1 state (split1 v1).1 = Except.ok o1 →
      comb1 (split1 v1).2 o1 = v2 →
      f2 state (split2 v2).1 = Except.ok o2 →
      comb2 (split2 v2).2 o2 = v3 →
      f3 state (split3 v3).1 = Except.error e →
      sixChainFilter split0 f0 comb0 split1 f1 comb1 split2 f2 comb2 split3 f3 comb3 split4 f4 comb4 split5 f5 comb5 state value
        = Except.error (StateFilterSixChainError.Filter3 e))
    ∧ (∀ (split0 : A → I0 × R0) (f0 : St → I0 → Except E0 O0) (comb0 : R0 → O0 → C0)
      (split1 : C0 → I1 × R1) (f1 : St → I1 → Except E1 O1) (comb1 : R1 → O1 → C1)
      (split2 : C1 → I2 × R2) (f2 : St → I2 → Except E2 O2) (comb2 : R2 → O2 → C2)
      (split3 : C2 → I3 × R3) (f3 : St → I3 → Except E3 O3) (comb3 : R3 → O3 → C3)
      (split4 : C3 → I4 × R4) (f4 : St → I4 → Except E4 O4) (comb4 : R4 → O4 → C4)
      (split5 : C4 → I5 × R5) (f5 : St → I5 → Except E5 O5) (comb5 : R5 → O5 → C5)
      (state : St) (value : A)
      (o0 : O0) (v1 : C0) (o1 : O1) (v2 : C1) (o2 : O2) (v3 : C2) (o3 : O3) (v4 : C3)
      (e : E4),
      f0 state (split0 value).1 = Except.ok o0 →
      comb0 (split0 value).2 o0 = v1 →
      f1 state (split1 v1).1 = Except.ok o1 →
      comb1 (split1 v1).2 o1 = v2 →
      f2 state (split2 v2).1 = Except.ok o2 →
      comb2 (split2 v2).2 o2 = v3 →
      f3 state (split3 v3).1 = Except.ok o3 →
      comb3 (split3 v3).2 o3 = v4 →
      f4 state (split4 v4).1 = Except.error e →
      sixChainFilter split0 f0 comb0 split1 f1 comb1 split2 f2 comb2 split3 f3 comb3 split4 f4 comb4 split5 f5 comb5 state value
        = Except.error (StateFilterSixChainError.Filter4 e))
    ∧ (∀ (split0 : A → I0 × R0) (f0 : St → I0 → Except E0 O0) (comb0 : R0 → O0 → C0)
      (split1 : C0 → I1 × R1) (f1 : St → I1 → Except E1 O1) (comb1 : R1 → O1 → C1)
      (split2 : C1 → I2 × R2) (f2 : St → I2 → Except E2 O2) (comb2 : R2 → O2 → C2)
      (split3 : C2 → I3 × R3) (f3 : St → I3 → Except E3 O3) (comb3 : R3 → O3 → C3)
      (split4 : C3 → I4 × R4) (f4 : St → I4 → Except E4 O4) (comb4 : R4 → O4 → C4)
      (split5 : C4 → I5 × R5) (f5 : St → I5 → Except E5 O5) (comb5 : R5 → O5 → C5)
      (state : St) (value : A)
      (o0 : O0) (v1 : C0) (o1 : O1) (v2 : C1) (o2 : O2) (v3 : C2) (o3 : O3) (v4 : C3) (o4 : O4) (v5 : C4)
      (e : E5),
      f0 state (split0 value).1 = Except.ok o0 →
      comb0 (split0 value).2 o0 = v1 →
      f1 state (split1 v1).1 = Except.ok o1 →
      comb1 (split1 v1).2 o1 = v2 →
      f2 state (split2 v2).1 = Except.ok o2 →
      comb2 (split2 v2).2 o2 = v3 →
      f3 state (split3 v3).1 = Except.ok o3 →
      comb3 (split3 v3).2 o3 = v4 →
      f4 state (split4 v4).1 = Except.ok o4 →
      comb4 (split4 v4).2 o4 = v5 →
      f5 state (split5 v5).1 = Except.error e →
      sixChainFilter split0 f0 comb0 split1 f1 comb1 split2 f2 comb2 split3 f3 comb3 split4 f4 comb4 split5 f5 comb5 state value
        = Except.error (StateFilterSixChainError.Filter5 e))
    ∧ (∀ (split0 : A → I0 × R0) (f0 : St → I0 → Except E0 O0) (comb0 : R0 → O0 → C0)
      (split1 : C0 → I1 × R1) (f1 : St → I1 → Except E1 O1) (comb1 : R1 → O1 → C1)
      (split2 : C1 → I2 × R2) (f2 : St → I2 → Except E2 O2) (comb2 : R2 → O2 → C2)
      (split3 : C2 → I3 × R3) (f3 : St → I3 → Except E3 O3) (comb3 : R3 → O3 → C3)
      (split4 : C3 → I4 × R4) (f4 : St → I4 → Except E4 O4) (comb4 : R4 → O4 → C4)
      (split5 : C4 → I5 × R5) (f5 : St → I5 → Except E5 O5) (comb5 : R5 → O5 → C5)
      (split6 : C5 → I6 × R6) (f6 : St → I6 → Except E6 O6) (comb6 : R6 → O6 → C6)
      (state : St) (value : A)
      (e : E0),
      f0 state (split0 value).1 = Except.error e →
      sevenChainFilter split0 f0 comb0 split1 f1 comb1 split2 f2 comb2 split3 f3 comb3 split4 f4 comb4 split5 f5 comb5 split6 f6 comb6 state value
        = Except.error (StateFilterSevenChainError.Filter0 e))
    ∧ (∀ (split0 : A → I0 × R0) (f0 : St → I0 → Except E0 O0) (comb0 : R0 → O0 → C0)
      (split1 : C0 → I1 × R1) (f1 : St → I1 → Except E1 O1) (comb1 : R1 → O1 → C1)
      (split2 : C1 → I2 × R2) (f2 : St → I2 → Except E2 O2) (comb2 : R2 → O2 → C2)
      (split3 : C2 → I3 × R3) (f3 : St → I3 → Except E3 O3) (comb3 : R3 → O3 → C3)
      (split4 : C3 → I4 × R4) (f4 : St → I4 → Except E4 O4) (comb4 : R4 → O4 → C4)
      (split5 : C4 → I5 × R5) (f5 : St → I5 → Except E5 O5) (comb5 : R5 → O5 → C5)
      (split6 : C5 → I6 × R6) (f6 : St → I6 → Except E6 O6) (comb6 : R6 → O6 → C6)
      (state : St) (value : A)
      (o0 : O0) (v1 : C0)
      (e : E1),
      f0 state (split0 value).1 = Except.ok o0 →
      comb0 (split0 value).2 o0 = v1 →
      f1 state (split1 v1).1 = Except.error e →
      sevenChainFilter split0 f0 comb0 split1 f1 comb1 split2 f2 comb2 split3 f3 comb3 split4 f4 comb4 split5 f5 comb5 split6 f6 comb6 state value
        = Except.error (StateFilterSevenChainError.Filter1 e))
    ∧ (∀ (split0 : A → I0 × R0) (f0 : St → I0 → Except E0 O0) (comb0 : R0 → O0 → C0)
      (split1 : C0 → I1 × R1) (f1 : St → I1 → Except E1 O1) (comb1 : R1 → O1 → C1)
      (split2 : C1 → I2 × R2) (f2 : St → I2 → Except E2 O2) (comb2 : R2 → O2 → C2)
      (split3 : C2 → I3 × R3) (f3 : St → I3 → Except E3 O3) (comb3 : R3 → O3 → C3)
      (split4 : C3 → I4 × R4) (f4 : St → I4 → Except E4 O4) (comb4 : R4 → O4 → C4)
      (split5 : C4 → I5 × R5) (f5 : St → I5 → Except E5 O5) (comb5 : R5 → O5 → C5)
      (split6 : C5 → I6 × R6) (f6 : St → I6 → Except E6 O6) (comb6 : R6 → O6 → C6)
      (state : St) (value : A)
      (o0 : O0) (v1 : C0) (o1 : O1) (v2 : C1)
      (e : E2),
      f0 state (split0 value).1 = Except.ok o0 →
      comb0 (split0 value).2 o0 = v1 →
      f1 state (split1 v1).1 = Except.ok o1 →
      comb1 (split1 v1).2 o1 = v2 →
      f2 state (split2 v2).1 = Except.error e →
      sevenChainFilter split0 f0 comb0 split1 f1 comb1 split2 f2 comb2 split3 f3 comb3 split4 f4 comb4 split5 f5 comb5 split6 f6 comb6 state value
        = Except.error (StateFilterSevenChainError.Filter2 e))
    ∧ (∀ (split0 : A → I0 × R0) (f0 : St → I0 → Except E0 O0) (comb0 : R0 → O0 → C0)
      (split1 : C0 → I1 × R1) (f1 : St → I1 → Except E1 O1) (comb1 : R1 → O1 → C1)
      (split2 : C1 → I2 × R2) (f2 : St → I2 → Except E2 O2) (comb2 : R2 → O2 → C2)
      (split3 : C2 → I3 × R3) (f3 : St → I3 → Except E3 O3) (comb3 : R3 → O3 → C3)
      (split4 : C3 → I4 × R4) (f4 : St → I4 → Except E4 O4) (comb4 : R4 → O4 → C4)
      (split5 : C4 → I5 × R5) (f5 : St → I5 → Except E5 O5) (comb5 : R5 → O5 → C5)
      (split6 : C5 → I6 × R6) (f6 : St → I6 → Except E6 O6) (comb6 : R6 → O6 → C6)
      (state : St) (value : A)
      (o0 : O0) (v1 : C0) (o1 : O1) (v2 : C1) (o2 : O2) (v3 : C2)
      (e : E3),
      f0 state (split0 value).1 = Except.ok o0 →
      comb0 (split0 value).2 o0 = v1 →
      f1 state (split1 v1).1 = Except.ok o1 →
      comb1 (split1 v1).2 o1 = v2 →
      f2 state (split2 v2).1 = Except.ok o2 →
      comb2 (split2 v2).2 o2 = v3 →
      f3 state (split3 v3).1 = Except.error e →
      sevenChainFilter split0 f0 comb0 split1 f1 comb1 split2 f2 comb2 split3 f3 comb3 split4 f4 comb4 split5 f5 comb5 split6 f6 comb6 state value
        = Except.error (StateFilterSevenChainError.Filter3 e))
    ∧ (∀ (split0 : A → I0 × R0) (f0 : St → I0 → Except E0 O0) (comb0 : R0 → O0 → C0)
      (split1 : C0 → I1 × R1) (f1 : St → I1 → Except E1 O1) (comb1 : R1 → O1 → C1)
      (split2 : C1 → I2 × R2) (f2 : St → I2 → Except E2 O2) (comb2 : R2 → O2 → C2)
      (split3 : C2 → I3 × R3) (f3 : St → I3 → Except E3 O3) (comb3 : R3 → O3 → C3)
      (split4 : C3 → I4 × R4) (f4 : St → I4 → Except E4 O4) (comb4 : R4 → O4 → C4)
      (split5 : C4 → I5 × R5) (f5 : St → I5 → Except E5 O5) (comb5 : R5 → O5 → C5)
      (split6 : C5 → I6 × R6) (f6 : St → I6 → Except E6 O6) (comb6 : R6 → O6 → C6)
      (state : St) (value : A)
      (o0 : O0) (v1 : C0) (o1 : O1) (v2 : C1) (o2 : O2) (v3 : C2) (o3 : O3) (v4 : C3)
      (e : E4),
      f0 state (split0 value).1 = Except.ok o0 →
      comb0 (split0 value).2 o0 = v1 →
      f1 state (split1 v1).1 = Except.ok o1 →
      comb1 (split1 v1).2 o1 = v2 →
      f2 state (split2 v2).1 = Except.ok o2 →
      comb2 (split2 v2).2 o2 = v3 →
      f3 state (split3 v3).1 = Except.ok o3 →
      comb3 (split3 v3).2 o3 = v4 →
      f4 state (split4 v4).1 = Except.error e →
      sevenChainFilter split0 f0 comb0 split1 f1 comb1 split2 f2 comb2 split3 f3 comb3 split4 f4 comb4 split5 f5 comb5 split6 f6 comb6 state value
        = Except.error (StateFilterSevenChainError.Filter4 e))
    ∧ (∀ (split0 : A → I0 × R0) (f0 : St → I0 → Except E0 O0) (comb0 : R0 → O0 → C0)
      (split1 : C0 → I1 × R1) (f1 : St → I1 → Except E1 O1) (comb1 : R1 → O1 → C1)
      (split2 : C1 → I2 × R2) (f2 : St → I2 → Except E2 O2) (comb2 : R2 → O2 → C2)
      (split3 : C2 → I3 × R3) (f3 : St → I3 → Except E3 O3) (comb3 : R3 → O3 → C3)
      (split4 : C3 → I4 × R4) (f4 : St → I4 → Except E4 O4) (comb4 : R4 → O4 → C4)
      (split5 : C4 → I5 × R5) (f5 : St → I5 → Except E5 O5) (comb5 : R5 → O5 → C5)
      (split6 : C5 → I6 × R6) (f6 : St → I6 → Except E6 O6) (comb6 : R6 → O6 → C6)
      (state : St) (value : A)
      (o0 : O0) (v1 : C0) (o1 : O1) (v2 : C1) (o2 : O2) (v3 : C2) (o3 : O3) (v4 : C3) (o4 : O4) (v5 : C4)
      (e : E5),
      f0 state (split0 value).1 = Except.ok o0 →
      comb0 (split0 value).2 o0 = v1 →
      f1 state (split1 v1).1 = Except.ok o1 →
      comb1 (split1 v1).2 o1 = v2 →
      f2 state (split2 v2).1 = Except.ok o2 →
      comb2 (split2 v2).2 o2 = v3 →
      f3 state (split3 v3).1 = Except.ok o3 →
      comb3 (split3 v3).2 o3 = v4 →
      f4 state (split4 v4).1 = Except.ok o4 →
      comb4 (split4 v4).2 o4 = v5 →
      f5 state (split5 v5).1 = Except.error e →
      sevenChainFilter split0 f0 comb0 split1 f1 comb1 split2 f2 comb2 split3 f3 comb3 split4 f4 comb4 split5 f5 comb5 split6 f6 comb6 state value
        = Except.error (StateFilterSevenChainError.Filter5 e))
    ∧ (∀ (split0 : A → I0 × R0) (f0 : St → I0 → Except E0 O0) (comb0 : R0 → O0 → C0)
      (split1 : C0 → I1 × R1) (f1 : St → I1 → Except E1 O1) (comb1 : R1 → O1 → C1)
      (split2 : C1 → I2 × R2) (f2 : St → I2 → Except E2 O2) (comb2 : R2 → O2 → C2)
      (split3 : C2 → I3 × R3) (f3 : St → I3 → Except E3 O3) (comb3 : R3 → O3 → C3)
      (split4 : C3 → I4 × R4) (f4 : St → I4 → Except E4 O4) (comb4 : R4 → O4 → C4)
      (split5 : C4 → I5 × R5) (f5 : St → I5 → Except E5 O5) (comb5 : R5 → O5 → C5)
      (split6 : C5 → I6 × R6) (f6 : St → I6 → Except E6 O6) (comb6 : R6 → O6 → C6)
      (state : St) (value : A)
      (o0 : O0) (v1 : C0) (o1 : O1) (v2 : C1) (o2 : O2) (v3 : C2) (o3 : O3) (v4 : C3) (o4 : O4) (v5 : C4) (o5 : O5) (v6 : C5)
      (e : E6),
      f0 state (split0 value).1 = Except.ok o0 →
      comb0 (split0 value).2 o0 = v1 →
      f1 state (split1 v1).1 = Except.ok o1 →
      comb1 (split1 v1).2 o1 = v2 →
      f2 state (split2 v2).1 = Except.ok o2 →
      comb2 (split2 v2).2 o2 = v3 →
      f3 state (split3 v3).1 = Except.ok o3 →
      comb3 (split3 v3).2 o3 = v4 →
      f4 state (split4 v4).1 = Except.ok o4 →
      comb4 (split4 v4).2 o4 = v5 →
      f5 state (split5 v5).1 = Except.ok o5 →
      comb5 (split5 v5).2 o5 = v6 →
      f6 state (split6 v6).1 = Except.error e →
      sevenChainFilter split0 f0 comb0 split1 f1 comb1 split2 f2 comb2 split3 f3 comb3 split4 f4 comb4 split5 f5 comb5 split6 f6 comb6 state value
        = Except.error (StateFilterSevenChainError.Filter6 e))
    ∧ (∀ (split0 : A → I0 × R0) (f0 : St → I0 → Except E0 O0) (comb0 : R0 → O0 → C0)
      (split1 : C0 → I1 × R1) (f1 : St → I1 → Except E1 O1) (comb1 : R1 → O1 → C1)
      (split2 : C1 → I2 × R2) (f2 : St → I2 → Except E2 O2) (comb2 : R2 → O2 → C2)
      (split3 : C2 → I3 × R3) (f3 : St → I3 → Except E3 O3) (comb3 : R3 → O3 → C3)
      (split4 : C3 → I4 × R4) (f4 : St → I4 → Except E4 O4) (comb4 : R4 → O4 → C4)
      (split5 : C4 → I5 × R5) (f5 : St → I5 → Except E5 O5) (comb5 : R5 → O5 → C5)
      (split6 : C5 → I6 × R6) (f6 : St → I6 → Except E6 O6) (comb6 : R6 → O6 → C6)
      (split7 : C6 → I7 × R7) (f7 : St → I7 → Except E7 O7) (comb7 : R7 → O7 → C7)
      (state : St) (value : A)
      (e : E0),
      f0 state (split0 value).1 = Except.error e →
      eightChainFilter split0 f0 comb0 split1 f1 comb1 split2 f2 comb2 split3 f3 comb3 split4 f4 comb4 split5 f5 comb5 split6 f6 comb6 split7 f7 comb7 state value
        = Except.error (StateFilterEightChainError.Filter0 e))
    ∧ (∀ (split0 : A → I0 × R0) (f0 : St → I0 → Except E0 O0) (comb0 : R0 → O0 → C0)
      (split1 : C0 → I1 × R1) (f1 : St → I1 → Except E1 O1) (comb1 : R1 → O1 → C1)
      (split2 : C1 → I2 × R2) (f2 : St → I2 → Except E2 O2) (comb2 : R2 → O2 → C2)
      (split3 : C2 → I3 × R3) (f3 : St → I3 → Except E3 O3) (comb3 : R3 → O3 → C3)
      (split4 : C3 → I4 × R4) (f4 : St → I4 → Except E4 O4) (comb4 : R4 → O4 → C4)
      (split5 : C4 → I5 × R5) (f5 : St → I5 → Except E5 O5) (comb5 : R5 → O5 → C5)
      (split6 : C5 → I6 × R6) (f6 : St → I6 → Except E6 O6) (comb6 : R6 → O6 → C6)
      (split7 : C6 → I7 × R7) (f7 : St → I7 → Except E7 O7) (comb7 : R7 → O7 → C7)
      (state : St) (value : A)
      (o0 : O0) (v1 : C0)
      (e : E1),
      f0 state (split0 value).1 = Except.ok o0 →
      comb0 (split0 value).2 o0 = v1 →
      f1 state (split1 v1).1 = Except.error e →
      eightChainFilter split0 f0 comb0 split1 f1 comb1 split2 f2 comb2 split3 f3 comb3 split4 f4 comb4 split5 f5 comb5 split6 f6 comb6 split7 f7 comb7 state value
        = Except.error (StateFilterEightChainError.Filter1 e))
    ∧ (∀ (split0 : A → I0 × R0) (f0 : St → I0 → Except E0 O0) (comb0 : R0 → O0 → C0)
      (split1 : C0 → I1 × R1) (f1 : St → I1 → Except E1 O1) (comb1 : R1 → O1 → C1)
      (split2 : C1 → I2 × R2) (f2 : St → I2 → Except E2 O2) (comb2 : R2 → O2 → C2)
      (split3 : C2 → I3 × R3) (f3 : St → I3 → Except E3 O3) (comb3 : R3 → O3 → C3)
      (split4 : C3 → I4 × R4) (f4 : St → I4 → Except E4 O4) (comb4 : R4 → O4 → C4)
      (split5 : C4 → I5 × R5) (f5 : St → I5 → Except E5 O5) (comb5 : R5 → O5 → C5)
      (split6 : C5 → I6 × R6) (f6 : St → I6 → Except E6 O6) (comb6 : R6 → O6 → C6)
      (split7 : C6 → I7 × R7) (f7 : St → I7 → Except E7 O7) (comb7 : R7 → O7 → C7)
      (state : St) (value : A)
      (o0 : O0) (v1 : C0) (o1 : O1) (v2 : C1)
      (e : E2),
      f0 state (split0 value).1 = Except.ok o0 →
      comb0 (split0 value).2 o0 = v1 →
      f1 state (split1 v1).1 = Except.ok o1 →
      comb1 (split1 v1).2 o1 = v2 →
      f2 state (split2 v2).1 = Except.error e →
      eightChainFilter split0 f0 comb0 split1 f1 comb1 split2 f2 comb2 split3 f3 comb3 split4 f4 comb4 split5 f5 comb5 split6 f6 comb6 split7 f7 comb7 state value
        = Except.error (StateFilterEightChainError.Filter2 e))
    ∧ (∀ (split0 : A → I0 × R0) (f0 : St → I0 → Except E0 O0) (comb0 : R0 → O0 → C0)
      (split1 : C0 → I1 × R1) (f1 : St → I1 → Except E1 O1) (comb1 : R1 → O1 → C1)
      (split2 : C1 → I2 × R2) (f2 : St → I2 → Except E2 O2) (comb2 : R2 → O2 → C2)
      (split3 : C2 → I3 × R3) (f3 : St → I3 → Except E3 O3) (comb3 : R3 → O3 → C3)
      (split4 : C3 → I4 × R4) (f4 : St → I4 → Except E4 O4) (comb4 : R4 → O4 → C4)
      (split5 : C4 → I5 × R5) (f5 : St → I5 → Except E5 O5) (comb5 : R5 → O5 → C5)
      (split6 : C5 → I6 × R6) (f6 : St → I6 → Except E6 O6) (comb6 : R6 → O6 → C6)
      (split7 : C6 → I7 × R7) (f7 : St → I7 → Except E7 O7) (comb7 : R7 → O7 → C7)
      (state : St) (value : A)
      (o0 : O0) (v1 : C0) (o1 : O1) (v2 : C1) (o2 : O2) (v3 : C2)
      (e : E3),
      f0 state (split0 value).1 = Except.ok o0 →
      comb0 (split0 value).2 o0 = v1 →
      f1 state (split1 v1).1 = Except.ok o1 →
      comb1 (split1 v1).2 o1 = v2 →
      f2 state (split2 v2).1 = Except.ok o2 →
      comb2 (split2 v2).2 o2 = v3 →
      f3 state (split3 v3).1 = Except.error e →
      eightChainFilter split0 f0 comb0 split1 f1 comb1 split2 f2 comb2 split3 f3 comb3 split4 f4 comb4 split5 f5 comb5 split6 f6 comb6 split7 f7 comb7 state value
        = Except.error (StateFilterEightChainError.Filter3 e))
    ∧ (∀ (split0 : A → I0 × R0) (f0 : St → I0 → Except E0 O0) (comb0 : R0 → O0 → C0)
      (split1 : C0 → I1 × R1) (f1 : St → I1 → Except E1 O1) (comb1 : R1 → O1 → C1)
      (split2 : C1 → I2 × R2) (f2 : St → I2 → Except E2 O2) (comb2 : R2 → O2 → C2)
      (split3 : C2 → I3 × R3) (f3 : St → I3 → Except E3 O3) (comb3 : R3 → O3 → C3)
      (split4 : C3 → I4 × R4) (f4 : St → I4 → Except E4 O4) (comb4 : R4 → O4 → C4)
      (split5 : C4 → I5 × R5) (f5 : St → I5 → Except E5 O5) (comb5 : R5 → O5 → C5)
      (split6 : C5 → I6 × R6) (f6 : St → I6 → Except E6 O6) (comb6 : R6 → O6 → C6)
      (split7 : C6 → I7 × R7) (f7 : St → I7 → Except E7 O7) (comb7 : R7 → O7 → C7)
      (state : St) (value : A)
      (o0 : O0) (v1 : C0) (o1 : O1) (v2 : C1) (o2 : O2) (v3 : C2) (o3 : O3) (v4 : C3)
      (e : E4),
      f0 state (split0 value).1 = Except.ok o0 →
      comb0 (split0 value).2 o0 = v1 →
      f1 state (split1 v1).1 = Except.ok o1 →
      comb1 (split1 v1).2 o1 = v2 →
      f2 state (split2 v2).1 = Except.ok o2 →
      comb2 (split2 v2).2 o2 = v3 →
      f3 state (split3 v3).1 = Except.ok o3 →
      comb3 (split3 v3).2 o3 = v4 →
      f4 state (split4 v4).1 = Except.error e →
      eightChainFilter split0 f0 comb0 split1 f1 comb1 split2 f2 comb2 split3 f3 comb3 split4 f4 comb4 split5 f5 comb5 split6 f6 comb6 split7 f7 comb7 state value
        = Except.error (StateFilterEightChainError.Filter4 e))
    ∧ (∀ (split0 : A → I0 × R0) (f0 : St → I0 → Except E0 O0) (comb0 : R0 → O0 → C0)
      (split1 : C0 → I1 × R1) (f1 : St → I1 → Except E1 O1) (comb1 : R1 → O1 → C1)
      (split2 : C1 → I2 × R2) (f2 : St → I2 → Except E2 O2) (comb2 : R2 → O2 → C2)
      (split3 : C2 → I3 × R3) (f3 : St → I3 → Except E3 O3) (comb3 : R3 → O3 → C3)
      (split4 : C3 → I4 × R4) (f4 : St → I4 → Except E4 O4) (comb4 : R4 → O4 → C4)
      (split5 : C4 → I5 × R5) (f5 : St → I5 → Except E5 O5) (comb5 : R5 → O5 → C5)
      (split6 : C5 → I6 × R6) (f6 : St → I6 → Except E6 O6) (comb6 : R6 → O6 → C6)
      (split7 : C6 → I7 × R7) (f7 : St → I7 → Except E7 O7) (comb7 : R7 → O7 → C7)
      (state : St) (value : A)
      (o0 : O0) (v1 : C0) (o1 : O1) (v2 : C1) (o2 : O2) (v3 : C2) (o3 : O3) (v4 : C3) (o4 : O4) (v5 : C4)
      (e : E5),
      f0 state (split0 value).1 = Except.ok o0 →
      comb0 (split0 value).2 o0 = v1 →
      f1 state (split1 v1).1 = Except.ok o1 →
      comb1 (split1 v1).2 o1 = v2 →
      f2 state (split2 v2).1 = Except.ok o2 →
      comb2 (split2 v2).2 o2 = v3 →
      f3 state (split3 v3).1 = Except.ok o3 →
      comb3 (split3 v3).2 o3 = v4 →
      f4 state (split4 v4).1 = Except.ok o4 →
      comb4 (split4 v4).2 o4 = v5 →
      f5 state (split5 v5).1 = Except.error e →
      eightChainFilter split0 f0 comb0 split1 f1 comb1 split2 f2 comb2 split3 f3 comb3 split4 f4 comb4 split5 f5 comb5 split6 f6 comb6 split7 f7 comb7 state value
        = Except.error (StateFilterEightChainError.Filter5 e))
    ∧ (∀ (split0 : A → I0 × R0) (f0 : St → I0 → Except E0 O0) (comb0 : R0 → O0 → C0)
      (split1 : C0 → I1 × R1) (f1 : St → I1 → Except E1 O1) (comb1 : R1 → O1 → C1)
      (split2 : C1 → I2 × R2) (f2 : St → I2 → Except E2 O2) (comb2 : R2 → O2 → C2)
      (split3 : C2 → I3 × R3) (f3 : St → I3 → Except E3 O3) (comb3 : R3 → O3 → C3)
      (split4 : C3 → I4 × R4) (f4 : St → I4 → Except E4 O4) (comb4 : R4 → O4 → C4)
      (split5 : C4 → I5 × R5) (f5 : St → I5 → Except E5 O5) (comb5 : R5 → O5 → C5)
      (split6 : C5 → I6 × R6) (f6 : St → I6 → Except E6 O6) (comb6 : R6 → O6 → C6)
      (split7 : C6 → I7 × R7) (f7 : St → I7 → Except E7 O7) (comb7 : R7 → O7 → C7)
      (state : St) (value : A)
      (o0 : O0) (v1 : C0) (o1 : O1) (v2 : C1) (o2 : O2) (v3 : C2) (o3 : O3) (v4 : C3) (o4 : O4) (v5 : C4) (o5 : O5) (v6 : C5)
      (e : E6),
      f0 state (split0 value).1 = Except.ok o0 →
      comb0 (split0 value).2 o0 = v1 →
      f1 state (split1 v1).1 = Except.ok o1 →
      comb1 (split1 v1).2 o1 = v2 →
      f2 state (split2 v2).1 = Except.ok o2 →
      comb2 (split2 v2).2 o2 = v3 →
      f3 state (split3 v3).1 = Except.ok o3 →
      comb3 (split3 v3).2 o3 = v4 →
      f4 state (split4 v4).1 = Except.ok o4 →
      comb4 (split4 v4).2 o4 = v5 →
      f5 state (split5 v5).1 = Except.ok o5 →
      comb5 (split5 v5).2 o5 = v6 →
      f6 state (split6 v6).1 = Except.error e →
      eightChainFilter split0 f0 comb0 split1 f1 comb1 split2 f2 comb2 split3 f3 comb3 split4 f4 comb4 split5 f5 comb5 split6 f6 comb6 split7 f7 comb7 state value
        = Except.error (StateFilterEightChainError.Filter6 e))
    ∧ (∀ (split0 : A → I0 × R0) (f0 : St → I0 → Except E0 O0) (comb0 : R0 → O0 → C0)
      (split1 : C0 → I1 × R1) (f1 : St → I1 → Except E1 O1) (comb1 : R1 → O1 → C1)
      (split2 : C1 → I2 × R2) (f2 : St → I2 → Except E2 O2) (comb2 : R2 → O2 → C2)
      (split3 : C2 → I3 × R3) (f3 : St → I3 → Except E3 O3) (comb3 : R3 → O3 → C3)
      (split4 : C3 → I4 × R4) (f4 : St → I4 → Except E4 O4) (comb4 : R4 → O4 → C4)
      (split5 : C4 → I5 × R5) (f5 : St → I5 → Except E5 O5) (comb5 : R5 → O5 → C5)
      (split6 : C5 → I6 × R6) (f6 : St → I6 → Except E6 O6) (comb6 : R6 → O6 → C6)
      (split7 : C6 → I7 × R7) (f7 : St → I7 → Except E7 O7) (comb7 : R7 → O7 → C7)
      (state : St) (value : A)
      (o0 : O0) (v1 : C0) (o1 : O1) (v2 : C1) (o2 : O2) (v3 : C2) (o3 : O3) (v4 : C3) (o4 : O4) (v5 : C4) (o5 : O5) (v6 : C5) (o6 : O6) (v7 : C6)
      (e : E7),
      f0 state (split0 value).1 = Except.ok o0 →
      comb0 (split0 value).2 o0 = v1 →
      f1 state (split1 v1).1 = Except.ok o1 →
      comb1 (split1 v1).2 o1 = v2 →
      f2 state (split2 v2).1 = Except.ok o2 →
      comb2 (split2 v2).2 o2 = v3 →
      f3 state (split3 v3).1 = Except.ok o3 →
      comb3 (split3 v3).2 o3 = v4 →
      f4 state (split4 v4).1 = Except.ok o4 →
      comb4 (split4 v4).2 o4 = v5 →
      f5 state (split5 v5).1 = Except.ok o5 →
      comb5 (split5 v5).2 o5 = v6 →
      f6 state (split6 v6).1 = Except.ok o6 →
      comb6 (split6 v6).2 o6 = v7 →
      f7 state (split7 v7).1 = Except.error e →
      eightChainFilter split0 f0 comb0 split1 f1 comb1 split2 f2 comb2 split3 f3 comb3 split4 f4 comb4 split5 f5 comb5 split6 f6 comb6 split7 f7 comb7 state value
        = Except.error (StateFilterEightChainError.Filter7 e)) := by
  refine ⟨?_, ?_, ?_, ?_, ?_, ?_, ?_, ?_, ?_, ?_, ?_, ?_, ?_, ?_, ?_, ?_, ?_, ?_, ?_, ?_, ?_, ?_, ?_, ?_, ?_, ?_, ?_, ?_, ?_, ?_, ?_, ?_, ?_, ?_, ?_⟩
  · intro split0 f0 comb0 split1 f1 comb1 state value e h0
    simp [twoChainFilter, h0, Except.map, Except.mapError, Except.bind]
  · intro split0 f0 comb0 split1 f1 comb1 state value o0 v1 e h0 hv1 h1
    subst hv1
    simp [twoChainFilter, h0, h1, Except.map, Except.mapError, Except.bind]
  · intro split0 f0 comb0 split1 f1 comb1 split2 f2 comb2 state value e h0
    simp [threeChainFilter, h0, Except.map, Except.mapError, Except.bind]
  · intro split0 f0 comb0 split1 f1 comb1 split2 f2 comb2 state value o0 v1 e h0 hv1 h1
    subst hv1
    simp [threeChainFilter, h0, h1, Except.map, Except.mapError, Except.bind]
  · intro split0 f0 comb0 split1 f1 comb1 split2 f2 comb2 state value o0 v1 o1 v2 e h0 hv1 h1 hv2 h2
    subst hv2
    subst hv1
    simp [threeChainFilter, h0, h1, h2, Except.map, Except.mapError, Except.bind]
  · intro split0 f0 comb0 split1 f1 comb1 split2 f2 comb2 split3 f3 comb3 state value e h0
    simp [fourChainFilter, h0, Except.map, Except.mapError, Except.bind]
  · intro split0 f0 comb0 split1 f1 comb1 split2 f2 comb2 split3 f3 comb3 state value o0 v1 e h0 hv1 h1
    subst hv1
    simp [fourChainFilter, h0, h1, Except.map, Except.mapError, Except.bind]
  · intro split0 f0 comb0 split1 f1 comb1 split2 f2 comb2 split3 f3 comb3 state value o0 v1 o1 v2 e h0 hv1 h1 hv2 h2
    subst hv2
    subst hv1
    simp [fourChainFilter, h0, h1, h2, Except.map, Except.mapError, Except.bind]
  · intro split0 f0 comb0 split1 f1 comb1 split2 f2 comb2 split3 f3 comb3 state value o0 v1 o1 v2 o2 v3 e h0 hv1 h1 hv2 h2 hv3 h3
    subst hv3
    subst hv2
    subst hv1
    simp [fourChainFilter, h0, h1, h2, h3, Except.map, Except.mapError, Except.bind]
  · intro split0 f0 comb0 split1 f1 comb1 split2 f2 comb2 split3 f3 comb3 split4 f4 comb4 state value e h0
    simp [fiveChainFilter, h0, Except.map, Except.mapError, Except.bind]
  · intro split0 f0 comb0 split1 f1 comb1 split2 f2 comb2 split3 f3 comb3 split4 f4 comb4 state value o0 v1 e h0 hv1 h1
    subst hv1
    simp [fiveChainFilter, h0, h1, Except.map, Except.mapError, Except.bind]
  · intro split0 f0 comb0 split1 f1 comb1 split2 f2 comb2 split3 f3 comb3 split4 f4 comb4 state value o0 v1 o1 v2 e h0 hv1 h1 hv2 h2
    subst hv2
    subst hv1
    simp [fiveChainFilter, h0, h1, h2, Except.map, Except.mapError, Except.bind]
  · intro split0 f0 comb0 split1 f1 comb1 split2 f2 comb2 split3 f3 comb3 split4 f4 comb4 state value o0 v1 o1 v2 o2 v3 e h0 hv1 h1 hv2 h2 hv3 h3
    subst hv3
    subst hv2
    subst hv1
    simp [fiveChainFilter, h0, h1, h2, h3, Except.map, Except.mapError, Except.bind]
  · intro split0 f0 comb0 split1 f1 comb1 split2 f2 comb2 split3 f3 comb3 split4 f4 comb4 state value o0 v1 o1 v2 o2 v3 o3 v4 e h0 hv1 h1 hv2 h2 hv3 h3 hv4 h4
    subst hv4
    subst hv3
    subst hv2
    subst hv1
    simp [fiveChainFilter, h0, h1, h2, h3, h4, Except.map, Except.mapError, Except.bind]
  · intro split0 f0 comb0 split1 f1 comb1 split2 f2 comb2 split3 f3 comb3 split4 f4 comb4 split5 f5 comb5 state value e h0
    simp [sixChainFilter, h0, Except.map, Except.mapError, Except.bind]
  · intro split0 f0 comb0 split1 f1 comb1 split2 f2 comb2 split3 f3 comb3 split4 f4 comb4 split5 f5 comb5 state value o0 v1 e h0 hv1 h1
    subst hv1
    simp [sixChainFilter, h0, h1, Except.map, Except.mapError, Except.bind]
  · intro split0 f0 comb0 split1 f1 comb1 split2 f2 comb2 split3 f3 comb3 split4 f4 comb4 split5 f5 comb5 state value o0 v1 o1 v2 e h0 hv1 h1 hv2 h2
    subst hv2
    subst hv1
    simp [sixChainFilter, h0, h1, h2, Except.map, Except.mapError, Except.bind]
  · intro split0 f0 comb0 split1 f1 comb1 split2 f2 comb2 split3 f3 comb3 split4 f4 comb4 split5 f5 comb5 state value o0 v1 o1 v2 o2 v3 e h0 hv1 h1 hv2 h2 hv3 h3
    subst hv3
    subst hv2
    subst hv1
    simp [sixChainFilter, h0, h1, h2, h3, Except.map, Except.mapError, Except.bind]
  · intro split0 f0 comb0 split1 f1 comb1 split2 f2 comb2 split3 f3 comb3 split4 f4 comb4 split5 f5 comb5 state value o0 v1 o1 v2 o2 v3 o3 v4 e h0 hv1 h1 hv2 h2 hv3 h3 hv4 h4
    subst hv4
    subst hv3
    subst hv2
    subst hv1
    simp [sixChainFilter, h0, h1, h2, h3, h4, Except.map, Except.mapError, Except.bind]
  · intro split0 f0 comb0 split1 f1 comb1 split2 f2 comb2 split3 f3 comb3 split4 f4 comb4 split5 f5 comb5 state value o0 v1 o1 v2 o2 v3 o3 v4 o4 v5 e h0 hv1 h1 hv2 h2 hv3 h3 hv4 h4 hv5 h5
    subst hv5
    subst hv4
    subst hv3
    subst hv2
    subst hv1
    simp [sixChainFilter, h0, h1, h2, h3, h4, h5, Except.map, Except.mapError, Except.bind]
  · intro split0 f0 comb0 split1 f1 comb1 split2 f2 comb2 split3 f3 comb3 split4 f4 comb4 split5 f5 comb5 split6 f6 comb6 state value e h0
    simp [sevenChainFilter, h0, Except.map, Except.mapError, Except.bind]
  · intro split0 f0 comb0 split1 f1 comb1 split2 f2 comb2 split3 f3 comb3 split4 f4 comb4 split5 f5 comb5 split6 f6 comb6 state value o0 v1 e h0 hv1 h1
    subst hv1
    simp [sevenChainFilter, h0, h1, Except.map, Except.mapError, Except.bind]
  · intro split0 f0 comb0 split1 f1 comb1 split2 f2 comb2 split3 f3 comb3 split4 f4 comb4 split5 f5 comb5 split6 f6 comb6 state value o0 v1 o1 v2 e h0 hv1 h1 hv2 h2
    subst hv2
    subst hv1
    simp [sevenChainFilter, h0, h1, h2, Except.map, Except.mapError, Except.bind]
  · intro split0 f0 comb0 split1 f1 comb1 split2 f2 comb2 split3 f3 comb3 split4 f4 comb4 split5 f5 comb5 split6 f6 comb6 state value o0 v1 o1 v2 o2 v3 e h0 hv1 h1 hv2 h2 hv3 h3
    subst hv3
    subst hv2
    subst hv1
    simp [sevenChainFilter, h0, h1, h2, h3, Except.map, Except.mapError, Except.bind]
  · intro split0 f0 comb0 split1 f1 comb1 split2 f2 comb2 split3 f3 comb3 split4 f4 comb4 split5 f5 comb5 split6 f6 comb6 state value o0 v1 o1 v2 o2 v3 o3 v4 e h0 hv1 h1 hv2 h2 hv3 h3 hv4 h4
    subst hv4
    subst hv3
    subst hv2
    subst hv1
    simp [sevenChainFilter, h0, h1, h2, h3, h4, Except.map, Except.mapError, Except.bind]
  · intro split0 f0 comb0 split1 f1 comb1 split2 f2 comb2 split3 f3 comb3 split4 f4 comb4 split5 f5 comb5 split6 f6 comb6 state value o0 v1 o1 v2 o2 v3 o3 v4 o4 v5 e h0 hv1 h1 hv2 h2 hv3 h3 hv4 h4 hv5 h5
    subst hv5
    subst hv4
    subst hv3
    subst hv2
    subst hv1
    simp [sevenChainFilter, h0, h1, h2, h3, h4, h5, Except.map, Except.mapError, Except.bind]
  · intro split0 f0 comb0 split1 f1 comb1 split2 f2 comb2 split3 f3 comb3 split4 f4 comb4 split5 f5 comb5 split6 f6 comb6 state value o0 v1 o1 v2 o2 v3 o3 v4 o4 v5 o5 v6 e h0 hv1 h1 hv2 h2 hv3 h3 hv4 h4 hv5 h5 hv6 h6
    subst hv6
    subst hv5
    subst hv4
    subst hv3
    subst hv2
    subst hv1
    simp [sevenChainFilter, h0, h1, h2, h3, h4, h5, h6, Except.map, Except.mapError, Except.bind]
  · intro split0 f0 comb0 split1 f1 comb1 split2 f2 comb2 split3 f3 comb3 split4 f4 comb4 split5 f5 comb5 split6 f6 comb6 split7 f7 comb7 state value e h0
    simp [eightChainFilter, h0, Except.map, Except.mapError, Except.bind]
  · intro split0 f0 comb0 split1 f1 comb1 split2 f2 comb2 split3 f3 comb3 split4 f4 comb4 split5 f5 comb5 split6 f6 comb6 split7 f7 comb7 state value o0 v1 e h0 hv1 h1
    subst hv1
    simp [eightChainFilter, h0, h1, Except.map, Except.mapError, Except.bind]
  · intro split0 f0 comb0 split1 f1 comb1 split2 f2 comb2 split3 f3 comb3 split4 f4 comb4 split5 f5 comb5 split6 f6 comb6 split7 f7 comb7 state value o0 v1 o1 v2 e h0 hv1 h1 hv2 h2
    subst hv2
    subst hv1
    simp [eightChainFilter, h0, h1, h2, Except.map, Except.mapError, Except.bind]
  · intro split0 f0 comb0 split1 f1 comb1 split2 f2 comb2 split3 f3 comb3 split4 f4 comb4 split5 f5 comb5 split6 f6 comb6 split7 f7 comb7 state value o0 v1 o1 v2 o2 v3 e h0 hv1 h1 hv2 h2 hv3 h3
    subst hv3
    subst hv2
    subst hv1
    simp [eightChainFilter, h0, h1, h2, h3, Except.map, Except.mapError, Except.bind]
  · intro split0 f0 comb0 split1 f1 comb1 split2 f2 comb2 split3 f3 comb3 split4 f4 comb4 split5 f5 comb5 split6 f6 comb6 split7 f7 comb7 state value o0 v1 o1 v2 o2 v3 o3 v4 e h0 hv1 h1 hv2 h2 hv3 h3 hv4 h4
    subst hv4
    subst hv3
    subst hv2
    subst hv1
    simp [eightChainFilter, h0, h1, h2, h3, h4, Except.map, Except.mapError, Except.bind]
  · intro split0 f0 comb0 split1 f1 comb1 split2 f2 comb2 split3 f3 comb3 split4 f4 comb4 split5 f5 comb5 split6 f6 comb6 split7 f7 comb7 state value o0 v1 o1 v2 o2 v3 o3 v4 o4 v5 e h0 hv1 h1 hv2 h2 hv3 h3 hv4 h4 hv5 h5
    subst hv5
    subst hv4
    subst hv3
    subst hv2
    subst hv1
    simp [eightChainFilter, h0, h1, h2, h3, h4, h5, Except.map, Except.mapError, Except.bind]
  · intro split0 f0 comb0 split1 f1 comb1 split2 f2 comb2 split3 f3 comb3 split4 f4 comb4 split5 f5 comb5 split6 f6 comb6 split7 f7 comb7 state value o0 v1 o1 v2 o2 v3 o3 v4 o4 v5 o5 v6 e h0 hv1 h1 hv2 h2 hv3 h3 hv4 h4 hv5 h5 hv6 h6
    subst hv6
    subst hv5
    subst hv4
    subst hv3
    subst hv2
    subst hv1
    simp [eightChainFilter, h0, h1, h2, h3, h4, h5, h6, Except.map, Except.mapError, Except.bind]
  · intro split0 f0 comb0 split1 f1 comb1 split2 f2 comb2 split3 f3 comb3 split4 f4 comb4 split5 f5 comb5 split6 f6 comb6 split7 f7 comb7 state value o0 v1 o1 v2 o2 v3 o3 v4 o4 v5 o5 v6 o6 v7 e h0 hv1 h1 hv2 h2 hv3 h3 hv4 h4 hv5 h5 hv6 h6 hv7 h7
    subst hv7
    subst hv6
    subst hv5
    subst hv4
    subst hv3
    subst hv2
    subst hv1
    simp [eightChainFilter, h0, h1, h2, h3, h4, h5, h6, h7, Except.map, Except.mapError, Except.bind]

/-- C8: a chain of 2 to 8 steps built entirely from the identity filter `()`
returns `Ok` of its input unchanged, whenever each step's split/combine edge
satisfies the base-case round-trip identity (recombining the untouched remainder
with the unit output reproduces the value). -/
theorem noop_chain_is_identity :
    (∀ (split0 : A → Unit × R0) (comb0 : R0 → Unit → A)
      (split1 : A → Unit × R1) (comb1 : R1 → Unit → A)
      (state : St) (value : A),
      (∀ v, comb0 (split0 v).2 () = v) →
      (∀ v, comb1 (split1 v).2 () = v) →
      twoChainFilter split0 unitStateFilter comb0 split1 unitStateFilter comb1 state value = Except.ok value)
    ∧ (∀ (split0 : A → Unit × R0) (comb0 : R0 → Unit → A)
      (split1 : A → Unit × R1) (comb1 : R1 → Unit → A)
      (split2 : A → Unit × R2) (comb2 : R2 → Unit → A)
      (state : St) (value : A),
      (∀ v, comb0 (split0 v).2 () = v) →
      (∀ v, comb1 (split1 v).2 () = v) →
      (∀ v, comb2 (split2 v).2 () = v) →
      threeChainFilter split0 unitStateFilter comb0 split1 unitStateFilter comb1 split2 unitStateFilter comb2 state value = Except.ok value)
    ∧ (∀ (split0 : A → Unit × R0) (comb0 : R0 → Unit → A)
      (split1 : A → Unit × R1) (comb1 : R1 → Unit → A)
      (split2 : A → Unit × R2) (comb2 : R2 → Unit → A)
      (split3 : A → Unit × R3) (comb3 : R3 → Unit → A)
      (state : St) (value : A),
      (∀ v, comb0 (split0 v).2 () = v) →
      (∀ v, comb1 (split1 v).2 () = v) →
      (∀ v, comb2 (split2 v).2 () = v) →
      (∀ v, comb3 (split3 v).2 () = v) →
      fourChainFilter split0 unitStateFilter comb0 split1 unitStateFilter comb1 split2 unitStateFilter comb2 split3 unitStateFilter comb3 state value = Except.ok value)
    ∧ (∀ (split0 : A → Unit × R0) (comb0 : R0 → Unit → A)
      (split1 : A → Unit × R1) (comb1 : R1 → Unit → A)
      (split2 : A → Unit × R2) (comb2 : R2 → Unit → A)
      (split3 : A → Unit × R3) (comb3 : R3 → Unit → A)
      (split4 : A → Unit × R4) (comb4 : R4 → Unit → A)
      (state : St) (value : A),
      (∀ v, comb0 (split0 v).2 () = v) →
      (∀ v, comb1 (split1 v).2 () = v) →
      (∀ v, comb2 (split2 v).2 () = v) →
      (∀ v, comb3 (split3 v).2 () = v) →
      (∀ v, comb4 (split4 v).2 () = v) →
      fiveChainFilter split0 unitStateFilter comb0 split1 unitStateFilter comb1 split2 unitStateFilter comb2 split3 unitStateFilter comb3 split4 unitStateFilter comb4 state value = Except.ok value)
    ∧ (∀ (split0 : A → Unit × R0) (comb0 : R0 → Unit → A)
      (split1 : A → Unit × R1) (comb1 : R1 → Unit → A)
      (split2 : A → Unit × R2) (comb2 : R2 → Unit → A)
      (split3 : A → Unit × R3) (comb3 : R3 → Unit → A)
      (split4 : A → Unit × R4) (comb4 : R4 → Unit → A)
      (split5 : A → Unit × R5) (comb5 : R5 → Unit → A)
      (state : St) (value : A),
      (∀ v, comb0 (split0 v).2 () = v) →
      (∀ v, comb1 (split1 v).2 () = v) →
      (∀ v, comb2 (split2 v).2 () = v) →
      (∀ v, comb3 (split3 v).2 () = v) →
      (∀ v, comb4 (split4 v).2 () = v) →
      (∀ v, comb5 (split5 v).2 () = v) →
      sixChainFilter split0 unitStateFilter comb0 split1 unitStateFilter comb1 split2 unitStateFilter comb2 split3 unitStateFilter comb3 split4 unitStateFilter comb4 split5 unitStateFilter comb5 state value = Except.ok value)
    ∧ (∀ (split0 : A → Unit × R0) (comb0 : R0 → Unit → A)
      (split1 : A → Unit × R1) (comb1 : R1 → Unit → A)
      (split2 : A → Unit × R2) (comb2 : R2 → Unit → A)
      (split3 : A → Unit × R3) (comb3 : R3 → Unit → A)
      (split4 : A → Unit × R4) (comb4 : R4 → Unit → A)
      (split5 : A → Unit × R5) (comb5 : R5 → Unit → A)
      (split6 : A → Unit × R6) (comb6 : R6 → Unit → A)
      (state : St) (value : A),
      (∀ v, comb0 (split0 v).2 () = v) →
      (∀ v, comb1 (split1 v).2 () = v) →
      (∀ v, comb2 (split2 v).2 () = v) →
      (∀ v, comb3 (split3 v).2 () = v) →
      (∀ v, comb4 (split4 v).2 () = v) →
      (∀ v, comb5 (split5 v).2 () = v) →
      (∀ v, comb6 (split6 v).2 () = v) →
      sevenChainFilter split0 unitStateFilter comb0 split1 unitStateFilter comb1 split2 unitStateFilter comb2 split3 unitStateFilter comb3 split4 unitStateFilter comb4 split5 unitStateFilter comb5 split6 unitStateFilter comb6 state value = Except.ok value)
    ∧ (∀ (split0 : A → Unit × R0) (comb0 : R0 → Unit → A)
      (split1 : A → Unit × R1) (comb1 : R1 → Unit → A)
      (split2 : A → Unit × R2) (comb2 : R2 → Unit → A)
      (split3 : A → Unit × R3) (comb3 : R3 → Unit → A)
      (split4 : A → Unit × R4) (comb4 : R4 → Unit → A)
      (split5 : A → Unit × R5) (comb5 : R5 → Unit → A)
      (split6 : A → Unit × R6) (comb6 : R6 → Unit → A)
      (split7 : A → Unit × R7) (comb7 : R7 → Unit → A)
      (state : St) (value : A),
      (∀ v, comb0 (split0 v).2 () = v) →
      (∀ v, comb1 (split1 v).2 () = v) →
      (∀ v, comb2 (split2 v).2 () = v) →
      (∀ v, comb3 (split3 v).2 () = v) →
      (∀ v, comb4 (split4 v).2 () = v) →
      (∀ v, comb5 (split5 v).2 () = v) →
      (∀ v, comb6 (split6 v).2 () = v) →
      (∀ v, comb7 (split7 v).2 () = v) →
      eightChainFilter split0 unitStateFilter comb0 split1 unitStateFilter comb1 split2 unitStateFilter comb2 split3 unitStateFilter comb3 split4 unitStateFilter comb4 split5 unitStateFilter comb5 split6 unitStateFilter comb6 split7 unitStateFilter comb7 state value = Except.ok value) := by
  refine ⟨?_, ?_, ?_, ?_, ?_, ?_, ?_⟩
  · intro split0 comb0 split1 comb1 state value h0 h1
    simp [twoChainFilter, unitStateFilter, h0, h1, Except.map, Except.mapError, Except.bind]
  · intro split0 comb0 split1 comb1 split2 comb2 state value h0 h1 h2
    simp [threeChainFilter, unitStateFilter, h0, h1, h2, Except.map, Except.mapError, Except.bind]
  · intro split0 comb0 split1 comb1 split2 comb2 split3 comb3 state value h0 h1 h2 h3
    simp [fourChainFilter, unitStateFilter, h0, h1, h2, h3, Except.map, Except.mapError, Except.bind]
  · intro split0 comb0 split1 comb1 split2 comb2 split3 comb3 split4 comb4 state value h0 h1 h2 h3 h4
    simp [fiveChainFilter, unitStateFilter, h0, h1, h2, h3, h4, Except.map, Except.mapError, Except.bind]
  · intro split0 comb0 split1 comb1 split2 comb2 split3 comb3 split4 comb4 split5 comb5 state value h0 h1 h2 h3 h4 h5
    simp [sixChainFilter, unitStateFilter, h0, h1, h2, h3, h4, h5, Except.map, Except.mapError, Except.bind]
  · intro split0 comb0 split1 comb1 split2 comb2 split3 comb3 split4 comb4 split5 comb5 split6 comb6 state value h0 h1 h2 h3 h4 h5 h6
    simp [sevenChainFilter, unitStateFilter, h0, h1, h2, h3, h4, h5, h6, Except.map, Except.mapError, Except.bind]
  · intro split0 comb0 split1 comb1 split2 comb2 split3 comb3 split4 comb4 split5 comb5 split6 comb6 split7 comb7 state value h0 h1 h2 h3 h4 h5 h6 h7
    simp [eightChainFilter, unitStateFilter, h0, h1, h2, h3, h4, h5, h6, h7, Except.map, Except.mapError, Except.bind]

/-- C2: splitting a record value for a registered target (a subset of its
fields, in any order) and recombining the untouched remainder with the
extracted part reproduces a value that is field-equal to the original: its
field-name list is a permutation of the original's, and every field name looks
up to the same value.  The subset names must be field names of the record, and
field names are unique in a struct declaration. -/
theorem record_split_combine_roundtrip [Inhabited V]
    (r : List (String × V)) (subset : List String)
    (hsub : ∀ n ∈ subset, n ∈ r.map Prod.fst)
    (hr : (r.map Prod.fst).Nodup) (hs : subset.Nodup) :
    ((remainderCombine (recordSplitTake r subset).2 subset
        (recordSplitTake r subset).1).map Prod.fst).Perm (r.map Prod.fst)
    ∧ ∀ n, (remainderCombine (recordSplitTake r subset).2 subset
        (recordSplitTake r subset).1).lookup n = r.lookup n := by
  have hzip : subset.zip (subset.map (fun n => ((r.lookup n).getD default : V)))
      = subset.map (fun n => (n, (r.lookup n).getD default)) := by
    simpa using List.zip_map' (id : String → String)
      (fun n => ((r.lookup n).getD default : V)) subset
  constructor
  · simp only [remainderCombine, recordSplitTake, hzip, List.map_append, List.map_map]
    have h1 : (Prod.fst ∘ fun n => (n, ((r.lookup n).getD default : V))) = id :=
      funext (fun _ => rfl)
    rw [h1, List.map_id, map_fst_filter_key (fun n => decide (n ∉ subset)) r]
    have hperm1 : subset.Perm ((r.map Prod.fst).filter (fun n => decide (n ∈ subset))) := by
      refine List.perm_of_nodup_nodup_toFinset_eq hs (hr.filter _) ?_
      ext n
      simp only [List.mem_toFinset, List.mem_filter, decide_eq_true_eq]
      exact ⟨fun hn => ⟨hsub n hn, hn⟩, fun hn => hn.2⟩
    have hperm2 : ((r.map Prod.fst).filter (fun n => decide (n ∈ subset))
        ++ (r.map Prod.fst).filter (fun n => decide (n ∉ subset))).Perm (r.map Prod.fst) := by
      have := List.filter_append_perm (fun n => decide (n ∈ subset)) (r.map Prod.fst)
      simpa [decide_not] using this
    exact ((hperm1.append_right _).trans hperm2)
  · intro n
    by_cases hn : n ∈ subset
    · obtain ⟨v, hv⟩ := lookup_isSome_of_mem_keys (hsub n hn)
      have hself : (subset.map (fun m => (m, ((r.lookup m).getD default : V)))).lookup n
          = some ((r.lookup n).getD default) := lookup_map_pair_self _ hn
      rw [remainderCombine, recordSplitTake, hzip]
      rw [lookup_append_some hself, hv]
      simp [hv]
    · rw [remainderCombine, recordSplitTake, hzip]
      rw [lookup_append_none (lookup_map_pair_none _ hn)]
      exact lookup_filter_preserved hn

/-- C2 witness: the round trip at the documentation's two-field record with the
`user_id` field extracted. -/
theorem record_split_combine_roundtrip_witness :
    ((remainderCombine
        (recordSplitTake [("user_id", (10 : Nat)), ("username", 20)] ["user_id"]).2
        ["user_id"]
        (recordSplitTake [("user_id", (10 : Nat)), ("username", 20)] ["user_id"]).1).map
        Prod.fst).Perm ([("user_id", (10 : Nat)), ("username", 20)].map Prod.fst) :=
  (record_split_combine_roundtrip [("user_id", 10), ("username", 20)] ["user_id"]
    (by decide) (by decide) (by decide)).1

/-- C3: `Validator::try_new` fails exactly when the filter fails, propagating
the error unchanged; on success it returns a validator holding the original
state together with the filter's valid output, and `valid_output` on that
validator returns the output. -/
theorem validator_tryNew_filter_result
    (filter : St → In → Except E VO) (state : St) (input : In) :
    (∀ e, Validator.tryNew filter state input = Except.error e
      ↔ filter state input = Except.error e)
    ∧ (∀ v, filter state input = Except.ok v →
        Validator.tryNew filter state input = Except.ok (Validator.mk state v)
        ∧ (Validator.mk state v).validOutput = v) := by
  cases h : filter state input <;>
    simp [Validator.tryNew, Validator.validOutput, h]

/-- C3 witness: a succeeding filter at a concrete state and input. -/
theorem validator_tryNew_filter_result_witness :
    Validator.tryNew (fun (_ : Nat) (n : Nat) => (Except.ok (n + 1) : Except Nat Nat)) 4 5
      = Except.ok (Validator.mk 4 6)
    ∧ (Validator.mk (4 : Nat) (6 : Nat)).validOutput = 6 :=
  (validator_tryNew_filter_result (fun _ n => Except.ok (n + 1)) 4 5).2 6 rfl

/-- C4: the documentation's two-step admin chain: on the storage mapping
`UserID(0)` to the user named `"ADMIN"`, input `UserID(0)` yields
`Ok(AdminUser(..))`, input `UserID(99)` yields the step-0 tagged
`UserDoesNotExistError`, and with the stored user named `"GUEST"` input
`UserID(0)` yields the step-1 tagged `UserIsNotAdminError`. -/
theorem admin_user_concrete_scenario :
    removeAdminChainFilter adminStorage (UserID.mk 0)
      = Except.ok (AdminUser.mk (User.mk (UserID.mk 0) "ADMIN"))
    ∧ removeAdminChainFilter adminStorage (UserID.mk 99)
      = Except.error (StateFilterTwoChainError.Filter0 UserDoesNotExistError.mk)
    ∧ removeAdminChainFilter guestStorage (UserID.mk 0)
      = Except.error (StateFilterTwoChainError.Filter1 UserIsNotAdminError.mk) := by
  decide

/-- C5 counterexample: the registry is not keyed by the sorted type multiset.
For the record `{ a: T, b: T }` the two singleton subsets `{a}` and `{b}` have
the same sorted type multiset `{T}`, both are registered, yet they are
registered as two different generated Combination types (the keys carry the
field declaration index, so they differ). -/
theorem conversion_registry_multiset_collision :
    typeMultiset [ConversionSort.mk 0 "T"] = typeMultiset [ConversionSort.mk 1 "T"]
    ∧ (registryLookup (combinationRegistrations dupFields) [ConversionSort.mk 0 "T"]).isSome
    ∧ (registryLookup (combinationRegistrations dupFields) [ConversionSort.mk 1 "T"]).isSome
    ∧ registryLookup (combinationRegistrations dupFields) [ConversionSort.mk 0 "T"]
        ≠ registryLookup (combinationRegistrations dupFields) [ConversionSort.mk 1 "T"] := by
  decide

/-- C5 (amended): for every record whose fields each declare a nonempty,
duplicate-free conversion-type list (the derive always inserts the field's
primary type first), the registry key of a (subset, choice) pair is its
`ConversionSort` list sorted by field declaration index — not the sorted type
multiset: the same subset with the same choices taken in any order sorts to
the same key and hence the same generated type (first conjunct); each
enumerated pair is registered under a distinct key, exactly once, and every
lookup by a registered key succeeds without collision (second conjunct); but
distinct same-typed fields yield distinct generated types for the same sorted
type multiset (the counterexample above). -/
theorem conversion_registry_keying :
    (∀ l₁ l₂ : List ConversionSort, l₁.Perm l₂ →
      (l₁.map ConversionSort.sortNumber).Nodup → sortKey l₁ = sortKey l₂)
    ∧ ∀ fields : List (String × List String),
        (∀ f ∈ fields, f.2 ≠ []) → (∀ f ∈ fields, f.2.Nodup) →
        ((combinationRegistrations fields).map Prod.fst).Nodup
        ∧ ∀ p ∈ combinationRegistrations fields,
            registryLookup (combinationRegistrations fields) p.1 = some p.2 :=
  ⟨fun _ _ hp hn => sortKey_perm_invariant hp hn,
   fun fields hne hnd => registry_keys_nodup_lookup fields hne hnd⟩

/-- C5 witness: the same two-entry key taken in both orders sorts to the same
registry key, and the two-same-typed-fields record's registration keys are
pairwise distinct. -/
theorem conversion_registry_keying_witness :
    sortKey [ConversionSort.mk 1 "U", ConversionSort.mk 0 "T"]
      = sortKey [ConversionSort.mk 0 "T", ConversionSort.mk 1 "U"]
    ∧ ((combinationRegistrations dupFields).map Prod.fst).Nodup :=
  ⟨conversion_registry_keying.1 _ _ (by decide) (by decide),
   (conversion_registry_keying.2 dupFields (by decide) (by decide)).1⟩

/-- C6: the base cases of the field algebra are identities: combining the empty
remainder `()` with a value returns the value unchanged, and splitting a record
for its full field subset yields all of its field values, in declaration
order, paired with the empty remainder. -/
theorem split_combine_base_cases [Inhabited V] (r : List (String × V))
    (hr : (r.map Prod.fst).Nodup) :
    (∀ (T : Type) (v : T), unitRemainderCombine () v = v)
    ∧ recordSplitTake r (r.map Prod.fst) = (r.map Prod.snd, []) := by
  refine ⟨fun _ _ => rfl, ?_⟩
  unfold recordSplitTake
  simp only [Prod.mk.injEq]
  constructor
  · exact lookup_self_getD r hr
  · refine List.filter_eq_nil_iff.mpr ?_
    intro a ha
    simp only [decide_eq_true_eq, not_not]
    exact List.mem_map.mpr ⟨a, ha, rfl⟩

/-- C6 witness: the base cases at a concrete value and a concrete two-field
record. -/
theorem split_combine_base_cases_witness :
    unitRemainderCombine () (5 : Nat) = 5
    ∧ recordSplitTake [("user_id", (10 : Nat)), ("username", 20)]
        ([("user_id", (10 : Nat)), ("username", 20)].map Prod.fst)
      = ([("user_id", (10 : Nat)), ("username", 20)].map Prod.snd, []) :=
  ⟨(split_combine_base_cases [("user_id", (10 : Nat)), ("username", 20)] (by decide)).1 Nat 5,
   (split_combine_base_cases [("user_id", (10 : Nat)), ("username", 20)] (by decide)).2⟩

/-- C7: the identity filter `()` always succeeds with `()` on every state of
every state type, and its error type (`Infallible`, modelled as `Empty`) is
uninhabited. -/
theorem unit_filter_always_ok :
    (∀ (State : Type) (state : State), unitStateFilter state () = Except.ok ())
    ∧ IsEmpty Empty :=
  ⟨fun _ _ => rfl, ⟨fun e => e.elim⟩⟩

/-- C9 counterexample: there is no chain instantiation accepting a single
`Condition` entry; the tuple `StateFilter` implementations of
src/state-validation/src/state_filter.rs start at two entries. -/
theorem chain_arity_one_missing : (1 : Nat) ∉ chainImplArities := by
  decide

/-- C9 (amended): chain instantiations — `StateFilter` implementations
selected by a tuple of `Condition` entries, transcribed above as
`twoChainFilter` .. `eightChainFilter` — exist exactly for the arities 2
through 8; a single filter participates directly, not through a 1-tuple. -/
theorem chain_instantiation_arities (n : Nat) :
    n ∈ chainImplArities ↔ 2 ≤ n ∧ n ≤ 8 := by
  constructor
  · intro h
    fin_cases h <;> omega
  · rintro ⟨h2, h8⟩
    interval_cases n <;> decide

/-- C9 witness: arity 2 is an available chain instantiation. -/
theorem chain_instantiation_arities_witness : (2 : Nat) ∈ chainImplArities :=
  (chain_instantiation_arities 2).mpr (by decide)

/-- C10: `DynValidAction::execute_with_filter`: if the erased filter fails,
the result is `DynValidActionExecutionError` handing the original state back
unchanged next to the error, and the stored action is never invoked (the
result is the same for every action function); if the filter succeeds with
`v`, the action is invoked exactly once, on the stored payload, that state and
`v`, and its result is returned. -/
theorem dyn_action_execute_with_filter
    (a : DynValidAction St In Out VA V E) (state : St) (input : In) :
    (∀ e, a.filter state input = Except.error e →
      a.executeWithFilter state input
        = Except.error (DynValidActionExecutionError.mk state e)
      ∧ ∀ g : VA → St → V → Out,
          (DynValidAction.mk a.filter a.valid_action g).executeWithFilter state input
            = Except.error (DynValidActionExecutionError.mk state e))
    ∧ (∀ v, a.filter state input = Except.ok v →
        a.executeWithFilter state input
          = Except.ok (a.action a.valid_action state v)) := by
  cases h : a.filter state input <;>
    simp [DynValidAction.executeWithFilter, h]

/-- C10 witness: a failing erased filter at a concrete state; the state comes
back unchanged with the error. -/
theorem dyn_action_execute_with_filter_witness :
    (DynValidAction.mk (fun (_ : Nat) (_ : Nat) => (Except.error 2 : Except Nat Nat)) ()
      (fun (_ : Unit) (s v : Nat) => s + v)).executeWithFilter 7 5
      = Except.error (DynValidActionExecutionError.mk 7 2) :=
  ((dyn_action_execute_with_filter
    (DynValidAction.mk (fun _ _ => Except.error 2) () (fun _ s v => s + v)) 7 5).1 2 rfl).1

/-- C1 witness: a 2-chain whose first filter fails with a concrete error
returns the step-0 tagged error. -/
theorem chain_first_failure_short_circuit_witness :
    twoChainFilter (fun n : Nat => (n, n))
      (fun (_ : Unit) (_ : Nat) => (Except.error 3 : Except Nat Nat))
      (fun a b : Nat => a + b)
      (fun n : Nat => (n, n))
      (fun (_ : Unit) (n : Nat) => (Except.ok n : Except Nat Nat))
      (fun a b : Nat => a + b) () 5
      = Except.error (StateFilterTwoChainError.Filter0 3) :=
  (@chain_first_failure_short_circuit Unit Nat Nat Nat Nat Nat Nat Nat Nat Nat Nat Nat Nat Nat Nat Nat Nat Nat Nat Nat Nat Nat Nat Nat Nat Nat Nat Nat Nat Nat Nat Nat Nat Nat Nat Nat Nat Nat Nat Nat Nat Nat).1 _ _ _ _ _ _ () 5 3 rfl

/-- C8 witness: a concrete 2-chain of identity filters with the base-case
edges returns its input unchanged. -/
theorem noop_chain_is_identity_witness :
    twoChainFilter (fun n : Nat => ((), n)) unitStateFilter (fun r (_ : Unit) => r)
      (fun n : Nat => ((), n)) unitStateFilter (fun r (_ : Unit) => r) (0 : Nat) (42 : Nat)
      = Except.ok 42 :=
  (@noop_chain_is_identity Nat Nat Nat Nat Nat Nat Nat Nat Nat Nat).1 _ _ _ _ (0 : Nat) 42 (fun _ => rfl) (fun _ => rfl)

end StateValidation
